import Mathlib

/-!
Shallow embedding of the OpenLEADR VEN client (`openleadr/client.py`) and
proofs about its reporting engine, event tracker, registration manager and
polling loop.

Conventions of the embedding:
* Python `timedelta` values are their `total_seconds()` as `Int`; `datetime`
  values are seconds since an arbitrary epoch (`Int`).
* Python dicts used as keyed stores are association lists; `pyGet`, `pySet`
  and `pyDel` mirror `d[k]` lookup, `d[k] = v` assignment (which keeps the
  position of an existing key) and `d.pop(k)`.
* A Python attribute that the client nulls out (`self.reports = None` after a
  cancelled registration) is an `Option`; operations on a `none` container
  raise `TypeError`/`AttributeError` exactly where CPython would.
* Fallible code returns an error tag (`PyErr`) next to the state as CPython
  left it: mutations performed before the raise are kept, because the source
  mutates `self` in place.
* External collaborators (the scheduler, `utils.determine_event_status`, the
  enumeration tables of `openleadr.enums`, user callbacks and handlers) are
  parameters of the embedded functions, mirroring §6 of the specification
  which lists them as out-of-scope collaborators.
-/

namespace OpenLEADR

/-- Python `timedelta`, represented by its `total_seconds()` value. -/
abbrev Duration := Int

/-- Python `datetime`, as seconds since an arbitrary epoch. -/
abbrev Time := Int

/-- The Python exceptions the embedded client code can raise. -/
inductive PyErr where
  | keyError
  | typeError
  | attributeError
  | indexError
  | valueError
  | otherError
  deriving DecidableEq

/-- Whether the second character list is an initial segment of the first. -/
def charsStart : List Char → List Char → Bool
  | _, [] => true
  | [], _ :: _ => false
  | c :: cs, d :: ds => c == d && charsStart cs ds

/-- Whether the second character list occurs inside the first. -/
def charsContain : List Char → List Char → Bool
  | [], needle => needle.isEmpty
  | c :: rest, needle => charsStart (c :: rest) needle || charsContain rest needle

/-- Python `needle in hay` on strings (used by `'INVALID' in x` and
`'METADATA' in x` in `client.py`). -/
def strContains (hay needle : String) : Bool :=
  charsContain hay.data needle.data

/-- Python `s.startswith(p)` (used for the `x-` private-use prefixes in
`add_report`). -/
def strStarts (s p : String) : Bool :=
  charsStart s.data p.data

/-- Python dict lookup `d[k]` (a `none` result is a `KeyError` at the call
site). -/
def pyGet [BEq κ] (d : List (κ × β)) (k : κ) : Option β :=
  (d.find? (fun p => p.1 == k)).map Prod.snd

/-- Python dict assignment `d[k] = v`: an existing key keeps its position, a
new key is appended. -/
def pySet [BEq κ] (d : List (κ × β)) (k : κ) (v : β) : List (κ × β) :=
  if (d.find? (fun p => p.1 == k)).isSome then
    d.map (fun p => if p.1 == k then (k, v) else p)
  else d ++ [(k, v)]

/-- Python dict removal `d.pop(k)` (the lookup of the popped value is done
separately with `pyGet`). -/
def pyDel [BEq κ] (d : List (κ × β)) (k : κ) : List (κ × β) :=
  d.filter (fun p => !(p.1 == k))

/-- utils.find_by(collection, key, value): the first element whose key
matches, or `None`. -/
def find_by (l : List α) (key : α → String) (v : String) : Option α :=
  l.find? (fun x => key x == v)

/-- Python `s or alt` for the id arguments of add_report
(`report_specifier_id or utils.generate_id()`): `None` and the empty string
are falsy. -/
def pyOrStr (v : Option String) (alt : String) : String :=
  match v with
  | some s => if s.isEmpty then alt else s
  | none => alt

/-- Replace the first element satisfying `p` by `f` of it; models an in-place
mutation of an object found inside a Python list. -/
def updateFirstBy (p : α → Bool) (f : α → α) : List α → List α
  | [] => []
  | x :: xs => if p x then f x :: xs else x :: updateFirstBy p f xs

/-- openleadr.enums.STATUS_CODES.INVALID_ID. -/
def INVALID_ID : Int := 452

/-- openleadr.enums.STATUS_CODES.SIGNAL_NOT_SUPPORTED. -/
def SIGNAL_NOT_SUPPORTED : Int := 460

/-- objects.Measurement, with the attributes `add_report` and `create_report`
read (`description`, `unit`, `scale`, `acceptable_units`). -/
structure Measurement where
  name : String
  description : String
  unit : Option String
  scale : Option String
  acceptable_units : List String
  deriving DecidableEq

/-- objects.SamplingRate. -/
structure SamplingRate where
  min_period : Duration
  max_period : Duration
  on_change : Bool
  deriving DecidableEq

/-- objects.ReportDescription; `report_data_source` and `report_subject` are
the resource_id of the Target object `add_report` builds. -/
structure ReportDescription where
  r_id : String
  reading_type : String
  report_type : String
  report_data_source : String
  report_subject : String
  sampling_rate : SamplingRate
  measurement : Option Measurement
  market_context : Option String
  deriving DecidableEq

/-- objects.ReportPayload. -/
structure ReportPayload where
  r_id : String
  value : Int
  deriving DecidableEq

/-- objects.ReportInterval; `duration` is `none` when the dataclass default
(None) is used, as in the full-mode sampling loop of `update_report`. -/
structure ReportInterval where
  dtstart : Time
  report_payload : ReportPayload
  duration : Option Duration
  deriving DecidableEq

/-- objects.Report, as used both for declared reports and for the outgoing
reports `update_report` accumulates. -/
structure Report where
  report_specifier_id : String
  report_name : String
  data_collection_mode : String
  created_date_time : Option Time
  duration : Option Duration
  dtstart : Option Time
  report_request_id : Option String
  report_descriptions : List ReportDescription
  intervals : List ReportInterval
  deriving DecidableEq

/-- A job handle of the external scheduler, tagged with the
report_request_id its callback samples and its trigger data. -/
inductive SchedJob where
  | cron (report_request_id : String) (interval : Duration)
  | date (report_request_id : String) (run_date : Time)
  deriving DecidableEq

/-- The report_request_id a scheduler job was created for. -/
def jobTarget : SchedJob → String
  | .cron i _ => i
  | .date i _ => i

/-- The dict `create_report` appends to `self.report_requests`. -/
structure ReportRequest where
  report_request_id : String
  report_specifier_id : String
  report_back_duration : Option Duration
  r_ids : List String
  granularity : Option Duration
  job : Option SchedJob
  deriving DecidableEq

/-- event['event_descriptor'], the fields `_on_event` reads. -/
structure EventDescriptor where
  event_id : String
  event_status : String
  modification_number : Int
  deriving DecidableEq

/-- One entry of an event's signal list. -/
structure EventSignal where
  signal_name : String
  deriving DecidableEq

/-- event['event_signals'] is either a plain list or a dict holding the list
under the key 'event_signals'; `_on_event` distinguishes the two with
isinstance. -/
inductive EventSignals where
  | direct (signals : List EventSignal)
  | wrapped (signals : List EventSignal)
  deriving DecidableEq

/-- event['active_period']; its content is only ever passed to the external
utils.determine_event_status. -/
structure ActivePeriod where
  dtstart : Time
  duration : Duration
  deriving DecidableEq

/-- An event payload, with the fields `_on_event` reads. -/
structure Event where
  event_descriptor : EventDescriptor
  response_required : String
  active_period : ActivePeriod
  event_signals : EventSignals
  deriving DecidableEq

/-- The result of calling a user report callback. `raiseKeyError` and
`raiseOther` model the callback raising; client.py catches only `KeyError`
(and only in the incremental branch). -/
inductive CbRet where
  | scalar (v : Int)
  | samples (xs : List (Time × Int))
  | raiseKeyError
  | raiseOther

/-- A user report callback. Incremental sampling calls it with no arguments
(`none` here); full-mode sampling calls it with
`(date_from, date_to, sampling_interval)`. -/
abbrev Cb := Option (Time × Time × Duration) → CbRet

/-- The mutable attributes of OpenADRClient that the embedded methods touch.
The containers that `cancel_party_registration` and
`on_cancel_party_registration` null out are Options. -/
structure ClientState where
  ven_id : Option String
  registration_id : Option String
  reports : Option (List Report)
  report_callbacks : Option (List ((String × String) × Cb))
  report_requests : Option (List ReportRequest)
  incomplete_reports : Option (List (String × Report))
  pending_reports : Option (List Report)
  received_events : List Event
  responded_events : List (String × Option String)
  scheduler_jobs : List SchedJob

/-- One entry of oadrCreatedEvent.event_responses as `_on_event` builds it. -/
structure EventResponse where
  response_code : Int
  response_description : String
  opt_type : Option String
  request_id : String
  modification_number : Int
  event_id : String
  deriving DecidableEq

/-- A message sent to the VTN, with the fields the settled claims mention. -/
inductive OutMsg where
  | oadrCreatedEvent (response_code : Int) (request_id : String)
      (event_responses : List EventResponse)
  | oadrCreatedReport (response_code : Int) (request_id : String)
      (pending_report_ids : List String)
  | oadrCanceledPartyRegistration (response_code : Int) (request_id : String)
      (registration_id : Option String)
  | oadrCancelPartyRegistration (request_id : String) (registration_id : String)
      (ven_id : Option String)
  deriving DecidableEq

/-- A measurement spec inside a specifier payload of an incoming
oadrCreateReport (`specifier_payload['measurement']`). -/
structure MeasurementSpec where
  description : String
  unit : Option String
  deriving DecidableEq

/-- One specifier payload of an incoming report request. -/
structure SpecifierPayload where
  r_id : String
  measurement : Option MeasurementSpec
  deriving DecidableEq

/-- report_request['report_specifier'] of an incoming oadrCreateReport.
`granularity` models the value under the key (the VTN may send null);
`report_back_duration` is read with `.get`, so `none` covers both a missing
key and null; `report_interval_dtstart` is
`report_specifier['report_interval']['dtstart']` when the report_interval
key is present. -/
structure ReportSpecifier where
  report_specifier_id : String
  granularity : Option Duration
  report_back_duration : Option Duration
  specifier_payloads : List SpecifierPayload
  report_interval_dtstart : Option Time
  deriving DecidableEq

/-- One entry of response_payload['report_requests']. -/
structure IncomingReportRequest where
  report_request_id : String
  report_specifier : ReportSpecifier
  deriving DecidableEq

/-- The oadrCreateReport payload as `create_report` consumes it. The
request_id of the response is `response_payload['request_id']` when that key
is present, otherwise `response_payload['response']['request_id']`
(`response_request_id` here, `none` when either layer is missing). -/
structure CreateReportPayload where
  report_requests : List IncomingReportRequest
  request_id : Option String
  response_request_id : Option String
  deriving DecidableEq

/-- What `_perform_request` observes of the HTTP POST: the external transport
either raises (connector error or any other request error, both swallowed)
or yields a status and a body. The body is summarized by the outcomes of the
external codec calls on it: schema validation, signature/fingerprint
validation (consulted only when a VTN fingerprint is configured) and
parse_message (`none` = it raised). -/
structure HttpContent (α : Type) where
  length : Nat
  schemaOk : Bool
  fingerprintOk : Bool
  signatureOk : Bool
  parsed : Option (String × α)
  deriving DecidableEq

/-- The transport outcome `_perform_request` reacts to. -/
inductive HttpResult (α : Type) where
  | connectorError
  | requestError
  | response (status : Nat) (content : HttpContent α)
  deriving DecidableEq

/-- The distinct shapes of value `_perform_request` can return. `nonePair` is
`return None, {}`; `value` is `return message_type, message_payload`;
`bareNone` is the single-value `return None` taken on an empty body. The
constructor `oneTuple` stands for the one-element tuple `(None,)` that the
specification's error table promises for an empty body: the code never
builds it, and the constructor exists so that promise can be stated and
refuted. -/
inductive PerformRet (α : Type) where
  | nonePair
  | value (t : String) (p : α)
  | bareNone
  | oneTuple
  deriving DecidableEq

/-- client.py `_perform_request` (lines 1095-1142). Hook execution is
effect-free here because `_execute_hooks` swallows every hook exception. The
final warning about a non-200 OpenADR response code only logs, so it does
not appear. -/
def _perform_request (hasFingerprint : Bool) (r : HttpResult α) : PerformRet α :=
  match r with
  | .connectorError => .nonePair
  | .requestError => .nonePair
  | .response status content =>
    if status != 200 then .nonePair
    else if content.length == 0 then .bareNone
    else if !content.schemaOk then .nonePair
    else if hasFingerprint && !content.fingerprintOk then .nonePair
    else if hasFingerprint && !content.signatureOk then .nonePair
    else
      match content.parsed with
      | none => .nonePair
      | some (t, p) => .value t p

/-- The keys of a poll reply payload that `_poll` itself inspects before
dispatching ('events', 'report_requests', and 'request_id' for the
oadrRegisterReport acknowledgement). The payload handed to a dispatched
handler is represented by this same record. -/
structure PollPayload where
  events : Option (List Event)
  report_requests : Option (List IncomingReportRequest)
  request_id : Option String
  deriving DecidableEq

/-- What one `_poll` tick decides to do with the reply. The handler calls are
returned as values because the handlers are embedded separately; the two
arms of `_poll` that raise inside `_poll`'s own frame are errors of `_poll`
itself. -/
inductive PollDispatch where
  | noop
  | reregistration
  | distributeEvents (payload : PollPayload)
  | createReports (payload : PollPayload)
  | registeredReportSent (request_id : String)
  | cancelRegistration (payload : PollPayload)
  | cancelReportRun (payload : PollPayload)
  | ignored (t : String)
  deriving DecidableEq

/-- client.py `_poll` (lines 1271-1323). The reply argument is the value
`_perform_request` returned; `poll()` unpacks it with
`response_type, response_payload = ...`, so `bareNone` (the empty-body
return) raises TypeError inside `poll()` and propagates out of `_poll`, and
a one-element tuple would raise ValueError at the same unpacking. The
oadrUpdateReport arm evaluates `self._on_report`, an attribute the class
never defines, so it raises AttributeError; the oadrRegisterReport arm reads
`response_payload['request_id']` and raises KeyError when the key is
missing. There is no try/except anywhere in `_poll`. -/
def _poll (reply : PerformRet PollPayload) : Except PyErr PollDispatch :=
  match reply with
  | .bareNone => .error .typeError
  | .oneTuple => .error .valueError
  | .nonePair => .ok .noop
  | .value t p =>
    if t == "oadrResponse" then .ok .noop
    else if t == "oadrRequestReregistration" then .ok .reregistration
    else if t == "oadrDistributeEvent" then
      match p.events with
      | some evs => if evs.length > 0 then .ok (.distributeEvents p) else .ok .noop
      | none => .ok .noop
    else if t == "oadrUpdateReport" then .error .attributeError
    else if t == "oadrCreateReport" then
      match p.report_requests with
      | some _ => .ok (.createReports p)
      | none => .ok .noop
    else if t == "oadrRegisterReport" then
      match p.request_id with
      | some rid => .ok (.registeredReportSent rid)
      | none => .error .keyError
    else if t == "oadrCancelPartyRegistration" then .ok (.cancelRegistration p)
    else if t == "oadrCancelReport" then .ok (.cancelReportRun p)
    else .ok (.ignored t)

/-- Whether an Except value carries no exception. -/
def isOkE : Except ε α → Bool
  | .ok _ => true
  | .error _ => false

/-- The outcome of one user event handler call (`on_event` /
`on_update_event`): a returned value (Python `None` is `ret none`) or a
raised exception. -/
inductive HandlerRet where
  | ret (v : Option String)
  | raise

/-- The configurable `on_event` and `on_update_event` attributes (reassigned
by `add_handler`). -/
structure Handlers where
  on_event : Event → HandlerRet
  on_update_event : Event → HandlerRet

/-- The slice of client state `_on_event` reads and writes:
`self.received_events` and `self.responded_events`. -/
structure EvState where
  received_events : List Event
  responded_events : List (String × Option String)
  deriving DecidableEq

/-- A record of one user handler invocation performed while processing a
batch of events. -/
inductive Invocation where
  | callOnEvent (ev : Event)
  | callOnUpdateEvent (ev : Event)
  deriving DecidableEq

/-- Outcome of processing one event of the batch: a result value and the
state after, or a raised exception together with the state as the in-place
mutations left it. -/
inductive StepOut where
  | ok (result : Option String) (st : EvState)
  | err (st : EvState)
  deriving DecidableEq

/-- utils.pop_by over received_events: drop the first event with the given
event_id. -/
def pop_by (l : List Event) (eid : String) : List Event :=
  match l with
  | [] => []
  | x :: xs => if x.event_descriptor.event_id == eid then xs else x :: pop_by xs eid

/-- client.py lines 1185-1189: after a result is obtained for an event,
either drop the responded_events entry (completed/cancelled event that has
one) or record the raw result under the event_id. -/
def recordResponded (event_status eid : String) (result : Option String)
    (st : EvState) : EvState :=
  if (event_status == "completed" || event_status == "cancelled")
      && (pyGet st.responded_events eid).isSome then
    { st with responded_events := pyDel st.responded_events eid }
  else
    { st with responded_events := pySet st.responded_events eid result }

/-- One iteration of the `for event in message['events']` loop of `_on_event`
(client.py lines 1162-1189), producing the handler invocations it performed
and its outcome. A known event with an unchanged modification_number reads
`self.responded_events[event_id]`, which raises KeyError when the entry was
previously dropped; a changed modification_number replaces the stored event
before invoking on_update_event; a new event is stored before invoking
on_event. -/
def processOne (hs : Handlers) (st : EvState) (ev : Event) :
    List Invocation × StepOut :=
  let eid := ev.event_descriptor.event_id
  let status := ev.event_descriptor.event_status
  match find_by st.received_events (fun e => e.event_descriptor.event_id) eid with
  | some prev =>
    if prev.event_descriptor.modification_number == ev.event_descriptor.modification_number then
      match pyGet st.responded_events eid with
      | none => ([], .err st)
      | some o => ([], .ok o (recordResponded status eid o st))
    else
      let st1 : EvState :=
        { st with received_events := pop_by st.received_events eid ++ [ev] }
      match hs.on_update_event ev with
      | .raise => ([.callOnUpdateEvent ev], .err st1)
      | .ret v => ([.callOnUpdateEvent ev], .ok v (recordResponded status eid v st1))
  | none =>
    let st1 : EvState := { st with received_events := st.received_events ++ [ev] }
    match hs.on_event ev with
    | .raise => ([.callOnEvent ev], .err st1)
    | .ret v => ([.callOnEvent ev], .ok v (recordResponded status eid v st1))

/-- Outcome of the whole `try` body of `_on_event`: the list of raw results
(one per event) or the first exception, with the state reached either way. -/
inductive BatchOut where
  | ok (results : List (Option String)) (st : EvState)
  | err (st : EvState)
  deriving DecidableEq

/-- The event loop of `_on_event` over the whole batch. -/
def runBatch (hs : Handlers) (st : EvState) :
    List Event → List Invocation × BatchOut
  | [] => ([], .ok [] st)
  | ev :: rest =>
    match processOne hs st ev with
    | (tr1, .err st1) => (tr1, .err st1)
    | (tr1, .ok r st1) =>
      match runBatch hs st1 rest with
      | (tr2, .ok rs st2) => (tr1 ++ tr2, .ok (r :: rs) st2)
      | (tr2, .err st2) => (tr1 ++ tr2, .err st2)

/-- client.py lines 1190-1194: a result that is neither 'optIn' nor 'optOut'
is coerced to 'optOut' when the event has response_required == 'always'. -/
def coerceResults (results : List (Option String)) (events : List Event) :
    List (Option String) :=
  (results.zip events).map (fun p =>
    if !(p.1 == some "optIn" || p.1 == some "optOut")
        && p.2.response_required == "always" then some "optOut"
    else p.1)

/-- The while loop of client.py lines 1217-1222: scan the signals while the
response code is 200, setting it to SIGNAL_NOT_SUPPORTED at the first
unrecognized signal_name. -/
def scanSignals (validSignalNames : List String) : Int → List EventSignal → Int
  | rc, [] => rc
  | rc, s :: rest =>
    if rc == 200 then
      scanSignals validSignalNames
        (if validSignalNames.contains s.signal_name then rc else SIGNAL_NOT_SUPPORTED)
        rest
    else rc

/-- The guard of client.py line 1212: an event gets an event_responses entry
iff its response_required is 'always' and the external
utils.determine_event_status does not classify its active_period as
'completed'. -/
def qualifies (determine_event_status : ActivePeriod → String) (ev : Event) : Bool :=
  ev.response_required == "always"
    && !(determine_event_status ev.active_period == "completed")

/-- client.py lines 1213-1216: the signal list, whether it came as a list or
wrapped in a dict. -/
def signalsOf (ev : Event) : List EventSignal :=
  match ev.event_signals with
  | .direct xs => xs
  | .wrapped xs => xs

/-- One event_responses entry (client.py lines 1223-1228). -/
def mkEventResponse (validSignalNames : List String) (request_id : String)
    (result : Option String) (ev : Event) : EventResponse :=
  let rc := scanSignals validSignalNames 200 (signalsOf ev)
  { response_code := rc,
    response_description := if rc == 200 then "OK" else "ERROR",
    opt_type := result,
    request_id := request_id,
    modification_number := ev.event_descriptor.modification_number,
    event_id := ev.event_descriptor.event_id }

/-- The `for i, event in enumerate(events)` synthesis loop of client.py lines
1211-1228, with the running index used to read `results[i]`. -/
def buildEventResponses (dES : ActivePeriod → String) (validSignalNames : List String)
    (request_id : String) (results : List (Option String)) :
    Nat → List Event → List EventResponse
  | _, [] => []
  | i, ev :: rest =>
    if qualifies dES ev then
      mkEventResponse validSignalNames request_id (results.getD i none) ev
        :: buildEventResponses dES validSignalNames request_id results (i + 1) rest
    else buildEventResponses dES validSignalNames request_id results (i + 1) rest

/-- The synthesis loop's result restated the way the specification words it:
one entry per enumerated event that qualifies. Used to compare the loop
against the claim. -/
def eventResponsesSpec (dES : ActivePeriod → String) (validSignalNames : List String)
    (request_id : String) (results : List (Option String)) (events : List Event) :
    List EventResponse :=
  ((events.enum).filter (fun p => qualifies dES p.2)).map
    (fun p => mkEventResponse validSignalNames request_id (results.getD p.1 none) p.2)

/-- The oadrDistributeEvent payload as `_on_event` consumes it: `_poll` only
dispatches here when 'events' is present and non-empty, and line 1153 reads
message['events'] before the try block; message['request_id'] is read by the
synthesis loop. -/
structure OnEventMessage where
  events : List Event
  request_id : String
  deriving DecidableEq

/-- Everything observable about one `_on_event` run. -/
structure OnEventOut where
  trace : List Invocation
  results : List (Option String)
  state : EvState
  event_responses : List EventResponse
  sent : List OutMsg

/-- Shared tail of `_on_event`: synthesize event_responses from the final
results and emit oadrCreatedEvent only when at least one entry was built
(client.py lines 1210-1244). The response code of the message is always 200
because the invalid-VTN-id check is commented out in this source. -/
def onEventFinish (dES : ActivePeriod → String) (validSignalNames : List String)
    (msg : OnEventMessage) (trace : List Invocation)
    (results : List (Option String)) (st : EvState) : OnEventOut :=
  let ers := buildEventResponses dES validSignalNames msg.request_id results 0 msg.events
  { trace := trace, results := results, state := st, event_responses := ers,
    sent := if ers.length > 0 then [OutMsg.oadrCreatedEvent 200 msg.request_id ers] else [] }

/-- client.py `_on_event` (lines 1152-1244). The try block covers the event
loop and the coercion loop; any exception there (a raising handler, or the
KeyError of a dropped responded_events entry) replaces all results with
'optOut' (line 1198). The synthesis loop runs after the except. -/
def _on_event (dES : ActivePeriod → String) (validSignalNames : List String)
    (hs : Handlers) (st : EvState) (msg : OnEventMessage) : OnEventOut :=
  match runBatch hs st msg.events with
  | (trace, .ok rs st1) =>
    onEventFinish dES validSignalNames msg trace (coerceResults rs msg.events) st1
  | (trace, .err st1) =>
    onEventFinish dES validSignalNames msg trace
      (List.replicate msg.events.length (some "optOut")) st1

/-- The EvState just before the loop of `_on_event` processes the event at
index `i`, when every earlier step succeeded. -/
def stepState (hs : Handlers) (st : EvState) :
    List Event → Nat → Option EvState
  | _, 0 => some st
  | [], _ + 1 => none
  | ev :: rest, i + 1 =>
    match processOne hs st ev with
    | (_, .ok _ st1) => stepState hs st1 rest i
    | (_, .err _) => none

/-- The handler invocations performed by the loop step at index `i`, when
every earlier step succeeded. -/
def stepTrace (hs : Handlers) (st : EvState) :
    List Event → Nat → Option (List Invocation)
  | [], _ => none
  | ev :: _, 0 => some (processOne hs st ev).1
  | ev :: rest, i + 1 =>
    match processOne hs st ev with
    | (_, .ok _ st1) => stepTrace hs st1 rest i
    | (_, .err _) => none

/-- An observable side effect of `create_report` besides its state changes:
the inline `await self.update_report(...)` executions and the messages
handed to `_perform_request`. -/
inductive Effect where
  | ranUpdateReport (report_request_id : String)
  | sent (m : OutMsg)
  deriving DecidableEq

/-- The loop variables of `create_report` that the specifier-payload loop
mutates: `granularity` (a per-request variable reassigned at line 800),
and `single` / `requested_r_ids`, which are initialized once before the
request loop and therefore leak across requests. -/
structure PayloadLoop where
  granularity : Option Duration
  single : Bool
  requested_r_ids : List String
  deriving DecidableEq

/-- The granularity validation of client.py lines 786-802 for one accepted
report description: `none` models the `continue` that rejects the r_id, the
updated loop state appends it. A zero granularity marks the request
single-shot and still accepts the r_id; an absent granularity is replaced by
the declared sampling_rate.max_period. -/
def granularityStep (rd : ReportDescription) (r_id : String) (acc : PayloadLoop) :
    Option PayloadLoop :=
  match acc.granularity with
  | some g =>
    if g == 0 then
      some { acc with single := true, requested_r_ids := acc.requested_r_ids ++ [r_id] }
    else if !(decide (rd.sampling_rate.min_period ≤ g)
        && decide (g ≤ rd.sampling_rate.max_period)) then
      none
    else some { acc with requested_r_ids := acc.requested_r_ids ++ [r_id] }
  | none =>
    some { acc with
           granularity := some rd.sampling_rate.max_period
           requested_r_ids := acc.requested_r_ids ++ [r_id] }

/-- The `for specifier_payload in ...` loop of client.py lines 760-802: skip
unknown r_ids, skip measurement mismatches (reading `rd.measurement` raises
AttributeError when the declared description has none, line 773), validate
granularity. -/
def processSpecifierPayloads (report : Report) :
    PayloadLoop → List SpecifierPayload → Except PyErr PayloadLoop
  | acc, [] => .ok acc
  | acc, sp :: rest =>
    match find_by report.report_descriptions (fun rd => rd.r_id) sp.r_id with
    | none => processSpecifierPayloads report acc rest
    | some rd =>
      match sp.measurement with
      | some m =>
        match rd.measurement with
        | none => .error .attributeError
        | some dm =>
          if m.description != dm.description then processSpecifierPayloads report acc rest
          else if m.unit != dm.unit then processSpecifierPayloads report acc rest
          else
            match granularityStep rd sp.r_id acc with
            | none => processSpecifierPayloads report acc rest
            | some acc1 => processSpecifierPayloads report acc1 rest
      | none =>
        match granularityStep rd sp.r_id acc with
        | none => processSpecifierPayloads report acc rest
        | some acc1 => processSpecifierPayloads report acc1 rest

/-- The accumulator of the `for report_request in ...` loop of
`create_report`: `response_code`, `single` and `requested_r_ids` are
initialized once for the whole call (lines 729-731), so they persist across
report requests; the appended request records, scheduler jobs and side
effects are collected here. -/
structure CRLoop where
  response_code : Int
  single : Bool
  requested_r_ids : List String
  new_requests : List ReportRequest
  jobs : List SchedJob
  effects : List Effect
  deriving DecidableEq

/-- The else branch of client.py lines 817-831: record the request with no
job, then either schedule a one-shot date job at report_interval.dtstart or
run update_report immediately. `rrsIsNone` models `self.report_requests`
having been nulled out, in which case the append raises AttributeError. -/
def crElseBranch (rrsIsNone : Bool) (acc : CRLoop) (pl : PayloadLoop)
    (rr : IncomingReportRequest) : Except PyErr CRLoop :=
  if rrsIsNone then .error .attributeError
  else
    let rrid := rr.report_request_id
    let record : ReportRequest :=
      { report_request_id := rrid,
        report_specifier_id := rr.report_specifier.report_specifier_id,
        report_back_duration := rr.report_specifier.report_back_duration,
        r_ids := [], granularity := pl.granularity, job := none }
    let base : CRLoop :=
      { acc with
        single := pl.single
        requested_r_ids := pl.requested_r_ids
        new_requests := acc.new_requests ++ [record] }
    match rr.report_specifier.report_interval_dtstart with
    | some dt => .ok { base with jobs := base.jobs ++ [SchedJob.date rrid dt] }
    | none => .ok { base with effects := base.effects ++ [Effect.ranUpdateReport rrid] }

/-- The test of client.py line 735 on one incoming report request: the
specifier id, or the r_id of the first specifier payload, contains the
substring INVALID. (The code reads only `specifier_payloads[0]`.) -/
def isInvalidReq (rr : IncomingReportRequest) : Bool :=
  match rr.report_specifier.specifier_payloads.head? with
  | none => false
  | some sp0 =>
    strContains rr.report_specifier.report_specifier_id "INVALID"
      || strContains sp0.r_id "INVALID"

/-- One iteration of the request loop of `create_report` (client.py lines
733-831). `specifier_payloads[0]` raises IndexError on an empty list; an
INVALID id only sets the response code; an unknown report is recorded with
no job; otherwise the payloads are validated and the request is either given
a recurring cron job (not single-shot and report_back_duration > 0, whose
read raises AttributeError when the duration is absent) or handled by the
else branch. The r_ids stored in each record are filled in after the loop,
because every record of one call aliases the same `requested_r_ids` list
object. -/
def processReportRequest (reports? : Option (List Report)) (rrsIsNone : Bool)
    (acc : CRLoop) (rr : IncomingReportRequest) : Except PyErr CRLoop :=
  match rr.report_specifier.specifier_payloads.head? with
  | none => .error .indexError
  | some sp0 =>
    if strContains rr.report_specifier.report_specifier_id "INVALID"
        || strContains sp0.r_id "INVALID" then
      .ok { acc with response_code := INVALID_ID }
    else
      match reports? with
      | none => .error .typeError
      | some reports =>
        match find_by reports (fun r => r.report_specifier_id)
            rr.report_specifier.report_specifier_id with
        | none =>
          if rrsIsNone then .error .attributeError
          else
            let record : ReportRequest :=
              { report_request_id := rr.report_request_id,
                report_specifier_id := rr.report_specifier.report_specifier_id,
                report_back_duration := rr.report_specifier.report_back_duration,
                r_ids := [], granularity := rr.report_specifier.granularity, job := none }
            .ok { acc with new_requests := acc.new_requests ++ [record] }
        | some report =>
          match processSpecifierPayloads report
              { granularity := rr.report_specifier.granularity, single := acc.single,
                requested_r_ids := acc.requested_r_ids }
              rr.report_specifier.specifier_payloads with
          | .error e => .error e
          | .ok pl =>
            if !pl.single then
              match rr.report_specifier.report_back_duration with
              | none => .error .attributeError
              | some r =>
                if r > 0 then
                  if rrsIsNone then .error .attributeError
                  else
                    let reporting_interval :=
                      match pl.granularity with
                      | some g => if g == 0 then r else g
                      | none => r
                    let job := SchedJob.cron rr.report_request_id reporting_interval
                    let record : ReportRequest :=
                      { report_request_id := rr.report_request_id,
                        report_specifier_id := rr.report_specifier.report_specifier_id,
                        report_back_duration := rr.report_specifier.report_back_duration,
                        r_ids := [], granularity := pl.granularity, job := some job }
                    .ok { acc with
                          single := pl.single
                          requested_r_ids := pl.requested_r_ids
                          new_requests := acc.new_requests ++ [record]
                          jobs := acc.jobs ++ [job] }
                else crElseBranch rrsIsNone acc pl rr
            else crElseBranch rrsIsNone acc pl rr

/-- The request loop of `create_report` over the whole payload. -/
def crLoopRun (reports? : Option (List Report)) (rrsIsNone : Bool) :
    CRLoop → List IncomingReportRequest → Except PyErr CRLoop
  | acc, [] => .ok acc
  | acc, rr :: rest =>
    match processReportRequest reports? rrsIsNone acc rr with
    | .error e => .error e
    | .ok acc' => crLoopRun reports? rrsIsNone acc' rest

/-- The loop state of `create_report` before its first request. -/
def crInit : CRLoop :=
  { response_code := 200, single := false, requested_r_ids := [],
    new_requests := [], jobs := [], effects := [] }

/-- client.py `create_report` (lines 721-845). After the loop every record
appended during this call carries the final content of the shared
requested_r_ids list; then one oadrCreatedReport is sent, listing every
report_request_id of the payload as pending, with the accumulated response
code (200, or INVALID_ID once any request tripped the INVALID test). Its
request_id is payload['request_id'] if present, else
payload['response']['request_id'] (KeyError when neither exists). -/
def create_report (st : ClientState) (payload : CreateReportPayload) :
    Except PyErr (ClientState × List Effect) :=
  match crLoopRun st.reports st.report_requests.isNone crInit payload.report_requests with
  | .error e => .error e
  | .ok acc =>
    let newRecords := acc.new_requests.map (fun r => { r with r_ids := acc.requested_r_ids })
    match (match payload.request_id with
           | some r => some r
           | none => payload.response_request_id) with
    | none => .error .keyError
    | some reqId =>
      let msg := OutMsg.oadrCreatedReport acc.response_code reqId
        (payload.report_requests.map (fun x => x.report_request_id))
      .ok ({ st with
             report_requests :=
               match st.report_requests with
               | none => none
               | some l => some (l ++ newRecords),
             scheduler_jobs := st.scheduler_jobs ++ acc.jobs },
           acc.effects ++ [Effect.sent msg])

/-- Outcome of a sampling loop of `update_report`: the interval list built so
far, with the exception that aborted it if one was raised. -/
inductive LoopOut where
  | done (intervals : List ReportInterval)
  | failed (e : PyErr) (intervals : List ReportInterval)

/-- The `for dt, value in result` append loop of the incremental branch
(client.py lines 901-912). The two arms of the TELEMETRY_USAGE test append
identical intervals (both pass duration=granularity); the test itself
evaluates `report_back_duration.total_seconds()`, which raises
AttributeError when the duration is absent and the name is
TELEMETRY_USAGE. -/
def appendIncrSamples (report_name r_id : String) (rbd gran : Option Duration) :
    List ReportInterval → List (Time × Int) → LoopOut
  | acc, [] => .done acc
  | acc, (dt, v) :: rest =>
    if report_name == "TELEMETRY_USAGE" then
      match rbd with
      | none => .failed .attributeError acc
      | some r =>
        if r == 0 then
          appendIncrSamples report_name r_id rbd gran
            (acc ++ [{ dtstart := dt, report_payload := { r_id := r_id, value := v },
                       duration := gran }]) rest
        else
          appendIncrSamples report_name r_id rbd gran
            (acc ++ [{ dtstart := dt, report_payload := { r_id := r_id, value := v },
                       duration := gran }]) rest
    else
      appendIncrSamples report_name r_id rbd gran
        (acc ++ [{ dtstart := dt, report_payload := { r_id := r_id, value := v },
                   duration := gran }]) rest

/-- The incremental sampling loop of `update_report` (client.py lines
893-914): the try/except around each r_id catches KeyError only (a missing
callback, or a callback raising KeyError, skips that r_id; any other
exception propagates). A scalar result is wrapped as one (now, value)
sample. A nulled-out report_callbacks dict raises TypeError at the
subscription, which the KeyError handler does not catch. -/
def incrLoop (cbs? : Option (List ((String × String) × Cb))) (now : Time)
    (report_name rsid : String) (rbd gran : Option Duration) :
    List ReportInterval → List String → LoopOut
  | acc, [] => .done acc
  | acc, rid :: rest =>
    match cbs? with
    | none => .failed .typeError acc
    | some cbs =>
      match pyGet cbs (rsid, rid) with
      | none => incrLoop cbs? now report_name rsid rbd gran acc rest
      | some cb =>
        match cb none with
        | .raiseKeyError => incrLoop cbs? now report_name rsid rbd gran acc rest
        | .raiseOther => .failed .otherError acc
        | .scalar v =>
          match appendIncrSamples report_name rid rbd gran acc [(now, v)] with
          | .done acc' => incrLoop cbs? now report_name rsid rbd gran acc' rest
          | .failed e acc' => .failed e acc'
        | .samples xs =>
          match appendIncrSamples report_name rid rbd gran acc xs with
          | .done acc' => incrLoop cbs? now report_name rsid rbd gran acc' rest
          | .failed e acc' => .failed e acc'

/-- The full-mode sampling loop of `update_report` (client.py lines 880-890):
no try/except, so a missing callback raises KeyError, a raising callback
propagates, and a scalar return raises TypeError when iterated. Full-mode
intervals carry no duration. -/
def fullLoop (cbs? : Option (List ((String × String) × Cb)))
    (dfrom dto : Time) (g : Duration) (rsid : String) :
    List ReportInterval → List String → LoopOut
  | acc, [] => .done acc
  | acc, rid :: rest =>
    match cbs? with
    | none => .failed .typeError acc
    | some cbs =>
      match pyGet cbs (rsid, rid) with
      | none => .failed .keyError acc
      | some cb =>
        match cb (some (dfrom, dto, g)) with
        | .raiseKeyError => .failed .keyError acc
        | .raiseOther => .failed .otherError acc
        | .scalar _ => .failed .typeError acc
        | .samples xs =>
          fullLoop cbs? dfrom dto g rsid
            (acc ++ xs.map (fun s =>
              { dtstart := s.1, report_payload := { r_id := rid, value := s.2 },
                duration := none })) rest

/-- Result of one `update_report` call: the exception it raised, if any, and
the client state as the in-place mutations left it. -/
structure UROut where
  err : Option PyErr
  state : ClientState

/-- Store the current value of the outgoing report back under its key when it
was taken from incomplete_reports: the dict entry is the very object
`update_report` mutates in place. -/
def syncEntry (cameFrom : Bool) (rrid : String) (outgoing : Report)
    (inc : List (String × Report)) : List (String × Report) :=
  if cameFrom then pySet inc rrid outgoing else inc

/-- Mid-sampling exception state: appends so far are visible in the stored
entry only when the accumulating list was the stored object's own non-empty
intervals list (`intervals = outgoing_report.intervals or []` aliases the
attribute then; a falsy value made `or []` build a fresh list, reassigned to
the attribute only at line 915, which the exception never reaches). -/
def syncEntryMidLoop (cameFrom aliased : Bool) (rrid : String) (outgoing0 : Report)
    (intervalsNow : List ReportInterval) (inc : List (String × Report)) :
    List (String × Report) :=
  if cameFrom then
    pySet inc rrid
      (if aliased then { outgoing0 with intervals := intervalsNow } else outgoing0)
  else inc

/-- The immediate-enqueue tail of `update_report` (client.py lines 936-938):
put the outgoing report on the pending queue (AttributeError when the queue
was nulled out). -/
def urImmediate (st : ClientState) (inc : List (String × Report)) (cameFrom : Bool)
    (rrid : String) (outgoing : Report) : UROut :=
  match st.pending_reports with
  | none =>
    { err := some .attributeError,
      state := { st with incomplete_reports := some (syncEntry cameFrom rrid outgoing inc) } }
  | some q =>
    { err := none,
      state := { st with
                 incomplete_reports := some (syncEntry cameFrom rrid outgoing inc)
                 pending_reports := some (q ++ [outgoing]) } }

/-- client.py `update_report` (lines 852-938). The caller-supplied callbacks
live in st.report_callbacks; `now` is the sampling wall-clock instant. An
unknown report_request_id raises TypeError (subscripting None), an unknown
report raises AttributeError (attribute of None). After sampling, dtstart is
set to the minimum interval start and duration to the declared report's
duration. The completion rule (lines 925-938): in incremental mode with a
present report_back_duration, a positive granularity (reading
`granularity.total_seconds()` raises AttributeError when granularity is
null) and report_back_duration > granularity, the report is flushed to the
pending queue exactly when the interval count equals
len(r_ids) * int(report_back_duration / granularity) — by popping the
incomplete_reports entry, which raises KeyError when no entry exists (the
count was reached on the first call); otherwise the partial report is stored
back. Every other combination enqueues immediately. -/
def update_report (now : Time) (st : ClientState) (report_request_id : String) : UROut :=
  match st.report_requests with
  | none => { err := some .typeError, state := st }
  | some rrs =>
    match find_by rrs (fun r => r.report_request_id) report_request_id with
    | none => { err := some .typeError, state := st }
    | some rr =>
      match st.reports with
      | none => { err := some .typeError, state := st }
      | some reps =>
        match find_by reps (fun r => r.report_specifier_id) rr.report_specifier_id with
        | none => { err := some .attributeError, state := st }
        | some report =>
          match st.incomplete_reports with
          | none => { err := some .typeError, state := st }
          | some inc =>
            let entry := pyGet inc report_request_id
            let cameFrom := entry.isSome
            let outgoing0 : Report :=
              match entry with
              | some r => r
              | none =>
                { report_specifier_id := report.report_specifier_id,
                  report_name :=
                    if !(strContains report.report_name "METADATA") then report.report_name
                    else report.report_name.replace "METADATA_" "",
                  data_collection_mode := "", created_date_time := none, duration := none,
                  dtstart := none, report_request_id := some report_request_id,
                  report_descriptions := [], intervals := [] }
            let aliased := !outgoing0.intervals.isEmpty
            let loopOut : LoopOut :=
              if report.data_collection_mode == "full" then
                let rbd1 := match rr.report_back_duration with
                            | none => rr.granularity
                            | some r => some r
                match rbd1, rr.granularity with
                | some r, some g =>
                  fullLoop st.report_callbacks (now - max r g) now g rr.report_specifier_id
                    outgoing0.intervals rr.r_ids
                | _, _ => .failed .typeError outgoing0.intervals
              else
                incrLoop st.report_callbacks now outgoing0.report_name rr.report_specifier_id
                  rr.report_back_duration rr.granularity outgoing0.intervals rr.r_ids
            match loopOut with
            | .failed e intervalsNow =>
              let inc1 := syncEntryMidLoop cameFrom aliased report_request_id outgoing0
                intervalsNow inc
              { err := some e, state := { st with incomplete_reports := some inc1 } }
            | .done intervals =>
              let outgoing1 := { outgoing0 with intervals := intervals }
              let outgoing2 :=
                match intervals with
                | [] => outgoing1
                | i0 :: irest =>
                  { outgoing1 with
                    dtstart := some (irest.foldl (fun a itv => min a itv.dtstart) i0.dtstart),
                    duration := report.duration }
              if report.data_collection_mode == "incremental" then
                match rr.report_back_duration with
                | none => urImmediate st inc cameFrom report_request_id outgoing2
                | some r =>
                  match rr.granularity with
                  | none =>
                    let inc1 := syncEntry cameFrom report_request_id outgoing2 inc
                    { err := some .attributeError,
                      state := { st with incomplete_reports := some inc1 } }
                  | some g =>
                    if g > 0 ∧ r > g then
                      let expected : Int := (rr.r_ids.length : Int) * Int.tdiv r g
                      if (outgoing2.intervals.length : Int) == expected then
                        match pyGet inc report_request_id with
                        | none =>
                          { err := some .keyError,
                            state := { st with incomplete_reports := some inc } }
                        | some _ =>
                          let inc1 := pyDel inc report_request_id
                          match st.pending_reports with
                          | none =>
                            { err := some .attributeError,
                              state := { st with incomplete_reports := some inc1 } }
                          | some q =>
                            { err := none,
                              state := { st with
                                         incomplete_reports := some inc1
                                         pending_reports := some (q ++ [outgoing2]) } }
                      else
                        let inc1 := pySet inc report_request_id outgoing2
                        { err := none,
                          state := { st with incomplete_reports := some inc1 } }
                    else urImmediate st inc cameFrom report_request_id outgoing2
              else urImmediate st inc cameFrom report_request_id outgoing2

/-- The exception (if any) raised when a caller unpacks a `_perform_request`
value with `response_type, response_payload = ...`. -/
def unpackErrOf : PerformRet α → Option PyErr
  | .bareNone => some .typeError
  | .oneTuple => some .valueError
  | _ => none

/-- payload['response'] of an acknowledgement, with the response_code the
registration methods read. -/
structure ResponseHead where
  response_code : Int
  deriving DecidableEq

/-- The payload of an oadrCanceledPartyRegistration acknowledgement;
`response` is `none` when the 'response' key is missing (as in the `{}` of a
failed request). -/
structure CancelAckPayload where
  response : Option ResponseHead
  deriving DecidableEq

/-- Result of a registration method call: the messages it handed to
`_perform_request`, the exception it raised (if any), and the state as its
mutations left it. -/
structure CallOut where
  sent : List OutMsg
  err : Option PyErr
  state : ClientState

/-- client.py `cancel_party_registration` (lines 506-533). An unregistered
client returns immediately. Otherwise an oadrCancelPartyRegistration is sent
with a fresh request_id; on an oadrCanceledPartyRegistration reply whose
response_code is 200, registration_id is nulled and all reporting containers
are set to None (not emptied) and all scheduler jobs removed; any other
reply only logs a warning. The VTN reply is the value `_perform_request`
returned (its unpacking can itself raise). -/
def cancel_party_registration (genRequestId : String)
    (vtnReply : PerformRet CancelAckPayload) (st : ClientState) : CallOut :=
  match st.registration_id with
  | none => { sent := [], err := none, state := st }
  | some regId =>
    let sent := [OutMsg.oadrCancelPartyRegistration genRequestId regId st.ven_id]
    match vtnReply with
    | .bareNone => { sent := sent, err := some .typeError, state := st }
    | .oneTuple => { sent := sent, err := some .valueError, state := st }
    | .nonePair => { sent := sent, err := none, state := st }
    | .value t p =>
      if t == "oadrCanceledPartyRegistration" then
        match p.response with
        | none => { sent := sent, err := some .keyError, state := st }
        | some resp =>
          if resp.response_code == 200 then
            { sent := sent, err := none,
              state := { st with
                         registration_id := none
                         report_requests := none
                         reports := none
                         report_callbacks := none
                         incomplete_reports := none
                         pending_reports := none
                         scheduler_jobs := [] } }
          else { sent := sent, err := none, state := st }
      else { sent := sent, err := none, state := st }

/-- The oadrCancelPartyRegistration payload as `on_cancel_party_registration`
reads it: `none` in a field means the key is absent from the message. -/
structure CancelRegMessage where
  registration_id : Option String
  request_id : Option String
  deriving DecidableEq

/-- client.py `on_cancel_party_registration` (lines 1032-1070). An
unregistered client, or a message without a registration_id key, returns
without responding. A mismatching registration_id answers with response_code
452 and returns with the state untouched. A matching one wipes the reporting
containers and scheduler jobs, answers with 200 (still carrying the old
registration_id), and then nulls registration_id — unless the send's
unpacking raises first, in which case registration_id survives. Reading
message['request_id'] raises KeyError when the key is missing, before
anything is sent or wiped on the mismatch path and before the wipe on the
match path. -/
def on_cancel_party_registration (msg : CancelRegMessage)
    (vtnReply : PerformRet CancelAckPayload) (st : ClientState) : CallOut :=
  match st.registration_id with
  | none => { sent := [], err := none, state := st }
  | some localId =>
    match msg.registration_id with
    | none => { sent := [], err := none, state := st }
    | some reqReg =>
      if !(localId == reqReg) then
        match msg.request_id with
        | none => { sent := [], err := some .keyError, state := st }
        | some q =>
          { sent := [OutMsg.oadrCanceledPartyRegistration 452 q (some localId)],
            err := unpackErrOf vtnReply, state := st }
      else
        match msg.request_id with
        | none => { sent := [], err := some .keyError, state := st }
        | some q =>
          let stWiped : ClientState :=
            { st with
              report_requests := none
              reports := none
              report_callbacks := none
              incomplete_reports := none
              pending_reports := none
              scheduler_jobs := [] }
          let sent := [OutMsg.oadrCanceledPartyRegistration 200 q (some localId)]
          match unpackErrOf vtnReply with
          | some e => { sent := sent, err := some e, state := stWiped }
          | none =>
            { sent := sent, err := none,
              state := { stWiped with registration_id := none } }

/-- The measurement argument of `add_report`: an objects.Measurement
instance, a dict (whose handling crashes at `object.PowerAttributes`, the
stdlib `object` having no such attribute), or a plain string looked up in
enums.MEASUREMENTS. Python None is `Option.none` around this type. -/
inductive MeasurementArg where
  | obj (m : Measurement)
  | dict
  | name (s : String)

/-- The sampling_rate argument of `add_report`: an objects.SamplingRate or a
bare timedelta. -/
inductive SamplingRateArg where
  | obj (sr : SamplingRate)
  | delta (d : Duration)

/-- The arguments of `add_report`, with the Python defaults. The string
defaults are the values of the enums named in the signature
(REPORT_NAME.TELEMETRY_USAGE, READING_TYPE.DIRECT_READ,
REPORT_TYPE.READING). `callbackTakesWindowArgs` is the result of the
inspect.signature check for the date_from/date_to/sampling_interval
parameters. -/
structure AddReportArgs where
  resource_id : String
  measurement : Option MeasurementArg := none
  data_collection_mode : String := "incremental"
  report_specifier_id : Option String := none
  r_id : Option String := none
  report_name : String := "TELEMETRY_USAGE"
  reading_type : String := "Direct Read"
  report_type : String := "reading"
  report_duration : Option Duration := none
  report_dtstart : Option Time := none
  sampling_rate : Option SamplingRateArg := none
  scale : Option String := some "none"
  unit : Option String := none
  market_context : Option String := none
  callbackTakesWindowArgs : Bool := false

/-- The enumeration tables of openleadr.enums consulted by the client
(external collaborator data per §6 of the spec): the valid report names,
reading types, report types, SI scale codes, the MEASUREMENTS table keyed by
upper-case member name, and the valid signal names. -/
structure EnumTables where
  report_names : List String
  reading_types : List String
  report_types : List String
  si_scale_codes : List String
  measurements : List (String × Measurement)
  signal_names : List String

/-- utils.find_by(reports, 'report_name', rn, 'report_specifier_id', rsid). -/
def find_by2 (l : List Report) (rn rsid : String) : Option Report :=
  l.find? (fun r => r.report_name == rn && r.report_specifier_id == rsid)

/-- client.py `add_report` (lines 207-370). Validates the vocabulary
arguments (ValueError; an `x-` prefix bypasses the name tables, and a scale
of None fails the membership test and raises too), applies the defaults,
rejects a full-mode callback without the window parameters (TypeError),
resolves the measurement (a dict measurement crashes with AttributeError at
`object.PowerAttributes`; a None measurement for a non-TELEMETRY_STATUS
report crashes at `measurement.upper()`), adjusts the scale, then finds the
report by (report_name, report_specifier_id) when a truthy specifier id was
given and by report_name alone otherwise, creating it if absent. The new
description is appended to the found or created report, the callback is
keyed under that report's specifier id and the final r_id, and the returned
pair is the local report_specifier_id variable (still None when an existing
report was found without a specifier id argument) and the r_id. -/
def add_report (tables : EnumTables) (now : Time) (genSpecifierId genRId : String)
    (callback : Cb) (a : AddReportArgs) (st : ClientState) :
    Except PyErr (ClientState × (Option String × String)) :=
  if !(tables.report_names.contains a.report_name) && !(strStarts a.report_name "x-") then
    .error .valueError
  else if !(tables.reading_types.contains a.reading_type)
      && !(strStarts a.reading_type "x-") then
    .error .valueError
  else if !(tables.report_types.contains a.report_type)
      && !(strStarts a.report_type "x-") then
    .error .valueError
  else if !(match a.scale with
            | some s => tables.si_scale_codes.contains s
            | none => false) then
    .error .valueError
  else
  let report_duration := a.report_duration.getD 3600
  let report_dtstart := a.report_dtstart.getD now
  let sampling_rate :=
    match a.sampling_rate with
    | none => { min_period := 10, max_period := 3600, on_change := false : SamplingRate }
    | some (.obj sr) => sr
    | some (.delta d) => { min_period := d, max_period := d, on_change := false }
  if !(a.data_collection_mode == "incremental" || a.data_collection_mode == "full") then
    .error .valueError
  else if a.data_collection_mode == "full" && !a.callbackTakesWindowArgs then
    .error .typeError
  else
  let itemE : Except PyErr (Option Measurement) :=
    if a.report_name == "TELEMETRY_STATUS" then .ok none
    else
      match a.measurement with
      | some (.obj m) => .ok (some m)
      | some .dict => .error .attributeError
      | some (.name s) =>
        match pyGet tables.measurements s.toUpper with
        | some m => .ok (some m)
        | none => .ok (some { name := "customUnit", description := s, unit := a.unit,
                              scale := a.scale, acceptable_units := [] })
      | none => .error .attributeError
  match itemE with
  | .error e => .error e
  | .ok item0 =>
  let scaleE : Except PyErr (Option Measurement) :=
    if a.report_name != "TELEMETRY_STATUS" && a.scale.isSome then
      match item0 with
      | none => .error .attributeError
      | some m =>
        if m.scale.isSome then
          .ok (some (if (match a.scale with
                         | some s => tables.si_scale_codes.contains s
                         | none => false) then { m with scale := a.scale } else m))
        else .error .valueError
    else .ok item0
  match scaleE with
  | .error e => .error e
  | .ok item1 =>
  let unitE : Except PyErr Unit :=
    match a.unit with
    | none => .ok ()
    | some _ =>
      match item1 with
      | none => .error .attributeError
      | some _ => .ok ()
  match unitE with
  | .error e => .error e
  | .ok _ =>
  match st.reports with
  | none => .error .typeError
  | some reports =>
  let rsidTruthy := match a.report_specifier_id with
                    | some s => !s.isEmpty
                    | none => false
  let found :=
    if rsidTruthy then find_by2 reports a.report_name (a.report_specifier_id.getD "")
    else find_by reports (fun r => r.report_name) a.report_name
  let foc :=
    match found with
    | some rep => (a.report_specifier_id, rep, reports)
    | none =>
      let rsid := pyOrStr a.report_specifier_id genSpecifierId
      let newRep : Report :=
        { report_specifier_id := rsid, report_name := a.report_name,
          data_collection_mode := a.data_collection_mode,
          created_date_time := some now, duration := some report_duration,
          dtstart := some report_dtstart, report_request_id := none,
          report_descriptions := [], intervals := [] }
      (some rsid, newRep, reports ++ [newRep])
  let specVar := foc.1
  let report := foc.2.1
  let reports1 := foc.2.2
  let rid := pyOrStr a.r_id genRId
  let rd : ReportDescription :=
    { r_id := rid, reading_type := a.reading_type, report_type := a.report_type,
      report_data_source := a.resource_id, report_subject := a.resource_id,
      sampling_rate := sampling_rate, measurement := item1,
      market_context := a.market_context }
  match st.report_callbacks with
  | none => .error .typeError
  | some cbs =>
  let cbs1 := pySet cbs (report.report_specifier_id, rid) callback
  let reports2 := updateFirstBy
    (fun r => r.report_name == report.report_name
              && r.report_specifier_id == report.report_specifier_id)
    (fun r => { r with report_descriptions := r.report_descriptions ++ [rd] })
    reports1
  .ok ({ st with reports := some reports2, report_callbacks := some cbs1 },
       (specVar, rid))

/-! ### Concrete fixtures used by the witnesses and counterexamples below. -/

/-- A poll payload with none of the optional keys. -/
def exPollPayload : PollPayload :=
  { events := none, report_requests := none, request_id := none }

/-- A 200 response whose body is empty. -/
def exEmptyContent : HttpContent Unit :=
  { length := 0, schemaOk := true, fingerprintOk := true, signatureOk := true,
    parsed := none }

/-- A declared measurement. -/
def exMeasurement : Measurement :=
  { name := "powerReal", description := "RealPower", unit := some "W",
    scale := some "none", acceptable_units := ["W"] }

/-- A declared report description for datapoint r1, sampling window 5s-60s. -/
def exReportDescription : ReportDescription :=
  { r_id := "r1", reading_type := "Direct Read", report_type := "reading",
    report_data_source := "res1", report_subject := "res1",
    sampling_rate := { min_period := 5, max_period := 60, on_change := false },
    measurement := some exMeasurement, market_context := none }

/-- A declared incremental TELEMETRY_USAGE report. -/
def exDeclaredReport : Report :=
  { report_specifier_id := "rs1", report_name := "TELEMETRY_USAGE",
    data_collection_mode := "incremental", created_date_time := none,
    duration := some 3600, dtstart := none, report_request_id := none,
    report_descriptions := [exReportDescription], intervals := [] }

/-- A callback returning the scalar 21 on every invocation. -/
def exScalarCb : Cb := fun _ => CbRet.scalar 21

/-- An active report request with report_back_duration 15s and granularity
10s: floor(15/10) = 1, so the expected interval count is reached on the very
first sampling call. -/
def exShortWindowRequest : ReportRequest :=
  { report_request_id := "rr1", report_specifier_id := "rs1",
    report_back_duration := some 15, r_ids := ["r1"], granularity := some 10,
    job := none }

/-- A registered client with the declared report, its callback and the short
window request; nothing sampled yet. -/
def exClientState : ClientState :=
  { ven_id := some "ven1", registration_id := some "reg1",
    reports := some [exDeclaredReport],
    report_callbacks := some [(("rs1", "r1"), exScalarCb)],
    report_requests := some [exShortWindowRequest],
    incomplete_reports := some [], pending_reports := some [],
    received_events := [], responded_events := [], scheduler_jobs := [] }

/-- The same client before registration (registration_id is None). -/
def exUnregState : ClientState := { exClientState with registration_id := none }

/-- A VTN-initiated cancellation naming a registration_id that is not ours
(local one is reg1). -/
def exCancelMsg : CancelRegMessage :=
  { registration_id := some "RID-2", request_id := some "Q1" }

/-- An incoming report request whose report_specifier_id contains INVALID. -/
def exInvalidRequest : IncomingReportRequest :=
  { report_request_id := "rrA",
    report_specifier := { report_specifier_id := "INVALID-x", granularity := some 10,
                          report_back_duration := some 30,
                          specifier_payloads := [{ r_id := "r1", measurement := none }],
                          report_interval_dtstart := none } }

/-- An oadrCreateReport payload holding only the invalid request. -/
def exInvalidPayload : CreateReportPayload :=
  { report_requests := [exInvalidRequest], request_id := some "REQ9",
    response_request_id := none }

/-- A distributed event E1, active, response required. -/
def exEvent1 : Event :=
  { event_descriptor := { event_id := "E1", event_status := "active",
                          modification_number := 0 },
    response_required := "always", active_period := { dtstart := 0, duration := 100 },
    event_signals := .direct [{ signal_name := "simple" }] }

/-- A second distributed event E2, on which the fixture handler raises. -/
def exEvent2 : Event :=
  { event_descriptor := { event_id := "E2", event_status := "active",
                          modification_number := 0 },
    response_required := "always", active_period := { dtstart := 0, duration := 100 },
    event_signals := .direct [{ signal_name := "simple" }] }

/-- A determine_event_status collaborator that classifies everything as
active. -/
def exDES : ActivePeriod → String := fun _ => "active"

/-- A signal-name vocabulary containing the fixture's signal. -/
def exSignalNames : List String := ["simple", "ELECTRICITY_PRICE", "LOAD_DISPATCH"]

/-- Handlers whose on_event raises on E2 and opts in otherwise. -/
def exHandlers : Handlers :=
  { on_event := fun e =>
      if e.event_descriptor.event_id == "E2" then HandlerRet.raise
      else HandlerRet.ret (some "optIn"),
    on_update_event := fun _ => HandlerRet.ret (some "optIn") }

/-- Event-tracker state that already knows E1 (modification_number 0) and has
optIn recorded for it. -/
def exEvState : EvState :=
  { received_events := [exEvent1], responded_events := [("E1", some "optIn")] }

/-- A batch re-delivering E1 unchanged together with the new E2. -/
def exBatchMsg : OnEventMessage :=
  { events := [exEvent1, exEvent2], request_id := "REQ1" }

/-- A batch re-delivering only E1 unchanged. -/
def exSingleMsg : OnEventMessage := { events := [exEvent1], request_id := "REQ1" }

/-- A batch holding only the event whose handler raises. -/
def exRaiseMsg : OnEventMessage := { events := [exEvent2], request_id := "REQ1" }

/-- Enumeration tables fixture for add_report. -/
def exTables : EnumTables :=
  { report_names := ["TELEMETRY_USAGE", "TELEMETRY_STATUS", "HISTORY_USAGE"],
    reading_types := ["Direct Read", "Net"],
    report_types := ["reading", "usage"],
    si_scale_codes := ["none", "kilo", "mega"],
    measurements := [("POWER_REAL", exMeasurement)],
    signal_names := ["simple", "ELECTRICITY_PRICE", "LOAD_DISPATCH"] }

/-- add_report arguments: no report_specifier_id, measurement given as an
objects.Measurement. -/
def exAddArgs : AddReportArgs :=
  { resource_id := "res2", measurement := some (MeasurementArg.obj exMeasurement),
    r_id := some "r2" }

/-- The report description the add_report witness call appends. -/
def exAddedDescription : ReportDescription :=
  { r_id := "r2", reading_type := "Direct Read", report_type := "reading",
    report_data_source := "res2", report_subject := "res2",
    sampling_rate := { min_period := 10, max_period := 3600, on_change := false },
    measurement := some { exMeasurement with scale := some "none" },
    market_context := none }

/-- The client state after the add_report witness call: the existing report
extended with the new description, the callback keyed under the existing
report's specifier id. -/
def exAddResultState : ClientState :=
  { exClientState with
    reports := some [{ exDeclaredReport with
      report_descriptions := [exReportDescription, exAddedDescription] }],
    report_callbacks := some [(("rs1", "r1"), exScalarCb), (("rs1", "r2"), exScalarCb)] }

/-- The same request with a 30s window: floor(30/10) = 3, the count is
reached on the third call. -/
def exWindowRequest30 : ReportRequest :=
  { exShortWindowRequest with report_back_duration := some 30 }

/-- The client holding the 30s-window request. -/
def exClientState30 : ClientState :=
  { exClientState with report_requests := some [exWindowRequest30] }

/-- First sampling call on the 30s-window request. -/
def exFire1 : UROut := update_report 1000 exClientState30 "rr1"

/-- Second sampling call. -/
def exFire2 : UROut := update_report 1010 exFire1.state "rr1"

/-- Third sampling call. -/
def exFire3 : UROut := update_report 1020 exFire2.state "rr1"

/-! ### Theorems -/

/-- C3 (amended): when the HTTP POST succeeds with status 200 but the
response body is empty, `_perform_request` returns the single bare value
None (`return None`), not a tuple of any arity. -/
theorem perform_request_empty_body_bare_none (hasF : Bool)
    (c : HttpContent α) (h : c.length = 0) :
    _perform_request hasF (HttpResult.response 200 c) = PerformRet.bareNone := by
  simp [_perform_request, h]

/-- C3 witness: the amended theorem at a concrete empty 200 response. -/
theorem perform_request_empty_body_bare_none_witness :
    _perform_request true (HttpResult.response 200 exEmptyContent) = PerformRet.bareNone :=
  perform_request_empty_body_bare_none true exEmptyContent rfl

/-- C3 counterexample: on a 200 response with an empty body the claim's
promised value, the one-element tuple (null,), is not what `_perform_request`
returns (it returns the bare None, so the caller's two-value unpacking
raises TypeError instead of ValueError). -/
theorem perform_request_empty_body_not_one_tuple :
    _perform_request true (HttpResult.response 200 exEmptyContent) ≠ PerformRet.oneTuple := by
  decide

/-- C2 counterexample: a reply of type oadrUpdateReport makes `_poll` raise
AttributeError, because the dispatch target `self._on_report` is not defined
anywhere in the class; the exception propagates out of `_poll`. -/
theorem poll_oadr_update_report_raises :
    _poll (PerformRet.value "oadrUpdateReport" exPollPayload)
      = Except.error PyErr.attributeError := by
  rfl

/-- C2 (amended): `_poll` contains no try/except; no exception escapes it
only on the paths that dispatch no handler: a transport/parse failure
(`(None, {})`), an oadrResponse, and an unrecognized message type are safe.
A reply dispatched to a handler can raise (oadrUpdateReport raises
AttributeError inside `_poll` itself, an empty body raises TypeError in
`poll()`, an oadrRegisterReport without request_id raises KeyError), so the
polling loop is not a safety net. -/
theorem poll_no_dispatch_replies_safe (p : PollPayload) (t : String)
    (h : (t == "oadrResponse") = true ∨
         ((t == "oadrResponse") = false ∧ (t == "oadrRequestReregistration") = false ∧
          (t == "oadrDistributeEvent") = false ∧ (t == "oadrUpdateReport") = false ∧
          (t == "oadrCreateReport") = false ∧ (t == "oadrRegisterReport") = false ∧
          (t == "oadrCancelPartyRegistration") = false ∧
          (t == "oadrCancelReport") = false)) :
    isOkE (_poll (PerformRet.value t p)) = true ∧
    isOkE (_poll (PerformRet.nonePair : PerformRet PollPayload)) = true := by
  refine ⟨?_, rfl⟩
  rcases h with h | ⟨h0, h1, h2, h3, h4, h5, h6, h7⟩
  · simp [_poll, h, isOkE]
  · simp [_poll, h0, h1, h2, h3, h4, h5, h6, h7, isOkE]

/-- C2 witness: the amended theorem at an unrecognized reply type and the
empty (None, {}) reply. -/
theorem poll_no_dispatch_replies_safe_witness :
    isOkE (_poll (PerformRet.value "oadrFnord" exPollPayload)) = true ∧
    isOkE (_poll (PerformRet.nonePair : PerformRet PollPayload)) = true :=
  poll_no_dispatch_replies_safe exPollPayload "oadrFnord"
    (Or.inr ⟨by decide, by decide, by decide, by decide, by decide, by decide,
             by decide, by decide⟩)

/-- C10: calling cancel_party_registration while registration_id is None
returns immediately: nothing is sent, nothing raises, and the whole client
state (reports, callbacks, requests, buffers, queue, scheduler jobs) is
untouched. -/
theorem cancel_party_registration_unregistered_noop (gid : String)
    (r : PerformRet CancelAckPayload) (st : ClientState)
    (h : st.registration_id = none) :
    (cancel_party_registration gid r st).sent = [] ∧
    (cancel_party_registration gid r st).err = none ∧
    (cancel_party_registration gid r st).state = st := by
  simp [cancel_party_registration, h]

/-- C10 witness: the theorem at an unregistered concrete client. -/
theorem cancel_party_registration_unregistered_noop_witness :
    (cancel_party_registration "QX" PerformRet.nonePair exUnregState).sent = [] ∧
    (cancel_party_registration "QX" PerformRet.nonePair exUnregState).err = none ∧
    (cancel_party_registration "QX" PerformRet.nonePair exUnregState).state = exUnregState :=
  cancel_party_registration_unregistered_noop "QX" PerformRet.nonePair exUnregState rfl

/-- C8: a VTN-initiated cancel-party-registration whose registration_id does
not match the local one is answered with response_code 452 and leaves the
whole local state — registration_id, reports, report_callbacks,
report_requests, incomplete_reports, pending_reports and the scheduler
jobs — unchanged, whatever the VTN replies to the 452 message. -/
theorem on_cancel_party_registration_mismatch_frame
    (msg : CancelRegMessage) (r : PerformRet CancelAckPayload) (st : ClientState)
    (localId reqReg q : String)
    (hl : st.registration_id = some localId)
    (hm : msg.registration_id = some reqReg)
    (hne : (localId == reqReg) = false)
    (hq : msg.request_id = some q) :
    (on_cancel_party_registration msg r st).state = st ∧
    (on_cancel_party_registration msg r st).sent
      = [OutMsg.oadrCanceledPartyRegistration 452 q (some localId)] := by
  simp [on_cancel_party_registration, hl, hm, hq, hne]

/-- C8 witness: the theorem at a concrete registered client and a mismatching
cancellation request. -/
theorem on_cancel_party_registration_mismatch_frame_witness :
    (on_cancel_party_registration exCancelMsg PerformRet.nonePair exClientState).state
      = exClientState ∧
    (on_cancel_party_registration exCancelMsg PerformRet.nonePair exClientState).sent
      = [OutMsg.oadrCanceledPartyRegistration 452 "Q1" (some "reg1")] :=
  on_cancel_party_registration_mismatch_frame exCancelMsg PerformRet.nonePair
    exClientState "reg1" "RID-2" "Q1" rfl rfl (by decide) rfl

/-- The synthesis loop is the filter-map the specification words describe,
for any starting index. -/
theorem buildEventResponses_eq_enumFrom (dES : ActivePeriod → String)
    (vs : List String) (rid : String) (results : List (Option String))
    (evs : List Event) : ∀ i : Nat,
    buildEventResponses dES vs rid results i evs
      = ((List.enumFrom i evs).filter (fun p => qualifies dES p.2)).map
          (fun p => mkEventResponse vs rid (results.getD p.1 none) p.2) := by
  induction evs with
  | nil => intro i; simp [buildEventResponses, List.enumFrom]
  | cons ev rest ih =>
    intro i
    by_cases h : qualifies dES ev = true
    · simp [buildEventResponses, List.enumFrom, List.filter, h, ih (i + 1)]
    · simp only [Bool.not_eq_true] at h
      simp [buildEventResponses, List.enumFrom, List.filter, h, ih (i + 1)]

/-- The filtered enumeration is empty exactly when no event qualifies. -/
theorem enumFrom_filter_qualifies_nil (dES : ActivePeriod → String)
    (evs : List Event) : ∀ i : Nat,
    (((List.enumFrom i evs).filter (fun p => qualifies dES p.2)) = []
      ↔ ∀ ev ∈ evs, qualifies dES ev = false) := by
  induction evs with
  | nil => intro i; simp [List.enumFrom]
  | cons ev rest ih =>
    intro i
    by_cases h : qualifies dES ev = true
    · simp [List.enumFrom, List.filter, h]
    · simp only [Bool.not_eq_true] at h
      simp [List.enumFrom, List.filter, h, ih (i + 1)]

/-- C6: the event_responses list `_on_event` builds is exactly one entry per
event with response_required = 'always' whose active_period is not
classified 'completed' by the external determine_event_status (in batch
order, carrying that event's final result as opt_type), and the
oadrCreatedEvent message is emitted iff at least one event qualifies — in
particular no message is emitted when none does. -/
theorem on_event_response_entries (dES : ActivePeriod → String)
    (vs : List String) (hs : Handlers) (st : EvState) (msg : OnEventMessage) :
    (_on_event dES vs hs st msg).event_responses
      = eventResponsesSpec dES vs msg.request_id
          (_on_event dES vs hs st msg).results msg.events
    ∧ ((_on_event dES vs hs st msg).sent ≠ []
        ↔ ∃ ev ∈ msg.events, qualifies dES ev = true) := by
  have key : ∀ (trace : List Invocation) (results : List (Option String)) (st1 : EvState),
      (onEventFinish dES vs msg trace results st1).event_responses
        = eventResponsesSpec dES vs msg.request_id results msg.events
      ∧ ((onEventFinish dES vs msg trace results st1).sent ≠ []
          ↔ ∃ ev ∈ msg.events, qualifies dES ev = true) := by
    intro trace results st1
    have h1 : buildEventResponses dES vs msg.request_id results 0 msg.events
        = eventResponsesSpec dES vs msg.request_id results msg.events := by
      rw [buildEventResponses_eq_enumFrom]
      simp [eventResponsesSpec, List.enum]
    constructor
    · simp [onEventFinish, h1]
    · constructor
      · intro hne
        by_contra hnone
        push_neg at hnone
        have hall : ∀ ev ∈ msg.events, qualifies dES ev = false := by
          intro ev hev
          have := hnone ev hev
          simp only [Bool.not_eq_true] at this
          exact this
        have hnil : buildEventResponses dES vs msg.request_id results 0 msg.events = [] := by
          rw [buildEventResponses_eq_enumFrom]
          have := (enumFrom_filter_qualifies_nil dES msg.events 0).mpr hall
          simp [this]
        simp [onEventFinish, hnil] at hne
      · rintro ⟨ev, hev, hq⟩
        have hnotnil : buildEventResponses dES vs msg.request_id results 0 msg.events ≠ [] := by
          rw [buildEventResponses_eq_enumFrom]
          intro hcon
          simp only [List.map_eq_nil_iff] at hcon
          have := (enumFrom_filter_qualifies_nil dES msg.events 0).mp hcon ev hev
          rw [hq] at this
          cases this
        rcases hbr : buildEventResponses dES vs msg.request_id results 0 msg.events with _ | ⟨e0, es⟩
        · exact absurd hbr hnotnil
        · simp [onEventFinish, hbr]
  rcases hrun : runBatch hs st msg.events with ⟨tr, bo⟩
  cases bo with
  | ok rs st1 =>
    have := key tr (coerceResults rs msg.events) st1
    simpa [_on_event, hrun] using this
  | err st1 =>
    have := key tr (List.replicate msg.events.length (some "optOut")) st1
    simpa [_on_event, hrun] using this

/-- A step whose trace shows a raising handler invocation ends in an
exception. -/
theorem processOne_err_of_raise (hs : Handlers) (st : EvState) (ev0 ev : Event)
    (h : (Invocation.callOnEvent ev ∈ (processOne hs st ev0).1
            ∧ hs.on_event ev = HandlerRet.raise)
       ∨ (Invocation.callOnUpdateEvent ev ∈ (processOne hs st ev0).1
            ∧ hs.on_update_event ev = HandlerRet.raise)) :
    ∃ st', (processOne hs st ev0).2 = StepOut.err st' := by
  rcases hf : find_by st.received_events (fun e => e.event_descriptor.event_id)
      ev0.event_descriptor.event_id with _ | prev
  · cases hoe : hs.on_event ev0 with
    | raise => exact ⟨_, by simp [processOne, hf, hoe]; rfl⟩
    | ret v =>
      simp [processOne, hf, hoe] at h
      rcases h with ⟨he, hr⟩
      rw [he, hoe] at hr
      cases hr
  · by_cases hm : (prev.event_descriptor.modification_number
        == ev0.event_descriptor.modification_number) = true
    · rcases hg : pyGet st.responded_events ev0.event_descriptor.event_id with _ | o
      · exact ⟨_, by simp [processOne, hf, hm, hg]; rfl⟩
      · simp [processOne, hf, hm, hg] at h
    · simp only [Bool.not_eq_true] at hm
      cases hoe : hs.on_update_event ev0 with
      | raise => exact ⟨_, by simp [processOne, hf, hm, hoe]; rfl⟩
      | ret v =>
        simp [processOne, hf, hm, hoe] at h
        rcases h with ⟨he, hr⟩
        rw [he, hoe] at hr
        cases hr

/-- A batch whose trace shows a raising handler invocation ends in the
except branch. -/
theorem runBatch_err_of_raise (hs : Handlers) (ev : Event) :
    ∀ (evs : List Event) (st : EvState),
    ((Invocation.callOnEvent ev ∈ (runBatch hs st evs).1
        ∧ hs.on_event ev = HandlerRet.raise)
      ∨ (Invocation.callOnUpdateEvent ev ∈ (runBatch hs st evs).1
        ∧ hs.on_update_event ev = HandlerRet.raise)) →
    ∃ st', (runBatch hs st evs).2 = BatchOut.err st' := by
  intro evs
  induction evs with
  | nil =>
    intro st h
    simp [runBatch] at h
  | cons e rest ih =>
    intro st h
    rcases hp : processOne hs st e with ⟨tr1, out1⟩
    cases out1 with
    | err st1 => exact ⟨st1, by simp [runBatch, hp]⟩
    | ok r st1 =>
      rcases hr : runBatch hs st1 rest with ⟨tr2, bo2⟩
      have htr : (runBatch hs st (e :: rest)).1 = tr1 ++ tr2 := by
        cases bo2 <;> simp [runBatch, hp, hr]
      rw [htr] at h
      have step : ∀ st'', (processOne hs st e).2 = StepOut.err st'' → False := by
        intro st'' hcon
        rw [hp] at hcon
        cases hcon
    -- split the membership over the two halves of the trace
      rcases h with ⟨hmem, hraise⟩ | ⟨hmem, hraise⟩
      · rcases List.mem_append.mp hmem with h1 | h2
        · obtain ⟨st'', hcon⟩ := processOne_err_of_raise hs st e ev
            (Or.inl ⟨by rw [hp]; exact h1, hraise⟩)
          exact absurd hcon (step st'')
        · obtain ⟨st'', herr⟩ := ih st1 (Or.inl ⟨by rw [hr]; exact h2, hraise⟩)
          rw [hr] at herr
          cases bo2 with
          | ok rs2 stx => cases herr
          | err stx => exact ⟨stx, by simp [runBatch, hp, hr]⟩
      · rcases List.mem_append.mp hmem with h1 | h2
        · obtain ⟨st'', hcon⟩ := processOne_err_of_raise hs st e ev
            (Or.inr ⟨by rw [hp]; exact h1, hraise⟩)
          exact absurd hcon (step st'')
        · obtain ⟨st'', herr⟩ := ih st1 (Or.inr ⟨by rw [hr]; exact h2, hraise⟩)
          rw [hr] at herr
          cases bo2 with
          | ok rs2 stx => cases herr
          | err stx => exact ⟨stx, by simp [runBatch, hp, hr]⟩

/-- C5: if any user handler (on_event or on_update_event) invoked while
processing a `_on_event` batch raises, the results for all events of the
batch are coerced to optOut. -/
theorem on_event_handler_raise_all_opt_out (dES : ActivePeriod → String)
    (vs : List String) (hs : Handlers) (st : EvState) (msg : OnEventMessage)
    (ev : Event)
    (h : (Invocation.callOnEvent ev ∈ (runBatch hs st msg.events).1
            ∧ hs.on_event ev = HandlerRet.raise)
       ∨ (Invocation.callOnUpdateEvent ev ∈ (runBatch hs st msg.events).1
            ∧ hs.on_update_event ev = HandlerRet.raise)) :
    (_on_event dES vs hs st msg).results
      = List.replicate msg.events.length (some "optOut") := by
  obtain ⟨st', herr⟩ := runBatch_err_of_raise hs ev msg.events st h
  rcases hrun : runBatch hs st msg.events with ⟨tr, bo⟩
  rw [hrun] at herr
  cases bo with
  | ok rs st1 => cases herr
  | err st1 => simp [_on_event, hrun, onEventFinish]

/-- C5 witness: a concrete batch whose on_event raises on its only event
yields [optOut]. -/
theorem on_event_handler_raise_all_opt_out_witness :
    (_on_event exDES exSignalNames exHandlers exEvState exRaiseMsg).results
      = List.replicate exRaiseMsg.events.length (some "optOut") :=
  on_event_handler_raise_all_opt_out exDES exSignalNames exHandlers exEvState
    exRaiseMsg exEvent2 (Or.inl ⟨by decide, rfl⟩)

/-- A successful batch yields one result per event. -/
theorem runBatch_ok_length (hs : Handlers) :
    ∀ (evs : List Event) (st : EvState) (tr : List Invocation)
      (rs : List (Option String)) (st2 : EvState),
    runBatch hs st evs = (tr, BatchOut.ok rs st2) → rs.length = evs.length := by
  intro evs
  induction evs with
  | nil =>
    intro st tr rs st2 hrun
    simp [runBatch] at hrun
    simp [hrun]
  | cons e rest ih =>
    intro st tr rs st2 hrun
    rcases hp : processOne hs st e with ⟨tr1, out1⟩
    cases out1 with
    | err st1 => simp [runBatch, hp] at hrun
    | ok r st1 =>
      rcases hr : runBatch hs st1 rest with ⟨tr2, bo2⟩
      cases bo2 with
      | err stx => simp [runBatch, hp, hr] at hrun
      | ok rs2 stx =>
        simp [runBatch, hp, hr] at hrun
        obtain ⟨⟨hrs, hstx⟩, htr⟩ := And.intro hrun.2 hrun.1
        rw [← hrs]
        simp [ih st1 tr2 rs2 stx hr]

/-- In a successful batch, the step at index i is the processOne call on the
intermediate state, its trace is the stepTrace, and its result is the i-th
entry of the result list. -/
theorem runBatch_ok_step (hs : Handlers) :
    ∀ (evs : List Event) (st : EvState) (i : Nat) (ev : Event) (stI : EvState)
      (tr : List Invocation) (rs : List (Option String)) (st2 : EvState),
    evs.get? i = some ev →
    stepState hs st evs i = some stI →
    runBatch hs st evs = (tr, BatchOut.ok rs st2) →
    stepTrace hs st evs i = some (processOne hs stI ev).1 ∧
    ∃ st3, (processOne hs stI ev).2 = StepOut.ok (rs.getD i none) st3 := by
  intro evs
  induction evs with
  | nil =>
    intro st i ev stI tr rs st2 hget
    simp at hget
  | cons e rest ih =>
    intro st i ev stI tr rs st2 hget hstep hrun
    rcases hp : processOne hs st e with ⟨tr1, out1⟩
    cases out1 with
    | err st1 =>
      cases i with
      | zero =>
        simp [stepState] at hstep
        subst hstep
        simp [runBatch, hp] at hrun
      | succ j => simp [stepState, hp] at hstep
    | ok r st1 =>
      rcases hr : runBatch hs st1 rest with ⟨tr2, bo2⟩
      cases bo2 with
      | err stx => simp [runBatch, hp, hr] at hrun
      | ok rs2 stx =>
        have hrun' : (tr1 ++ tr2, BatchOut.ok (r :: rs2) stx) = (tr, BatchOut.ok rs st2) := by
          rw [← hrun]; simp [runBatch, hp, hr]
        have hrs : rs = r :: rs2 := by
          have := congrArg Prod.snd hrun'
          simp at this
          exact this.1.symm
        cases i with
        | zero =>
          simp at hget
          simp only [stepState, Option.some.injEq] at hstep
          subst hget hstep
          constructor
          · rw [stepTrace, hp]
          · rw [hrs]
            exact ⟨st1, by rw [hp]; rfl⟩
        | succ j =>
          simp only [stepState, hp] at hstep
          have hget' : rest.get? j = some ev := by simpa using hget
          have := ih st1 j ev stI tr2 rs2 stx hget' hstep hr
          constructor
          · rw [stepTrace, hp]
            exact this.1
          · rw [hrs]
            simpa using this.2

/-- get? of a zip at an index where both lists are defined. -/
theorem zip_get?_some (l1 : List α) :
    ∀ (l2 : List β) (i : Nat) (a : α) (b : β),
    l1.get? i = some a → l2.get? i = some b →
    (l1.zip l2).get? i = some (a, b) := by
  induction l1 with
  | nil => intro l2 i a b h1; simp at h1
  | cons x xs ih =>
    intro l2 i a b h1 h2
    cases l2 with
    | nil => simp at h2
    | cons y ys =>
      cases i with
      | zero =>
        rw [List.get?_cons_zero] at h1 h2
        rw [List.zip_cons_cons, List.get?_cons_zero]
        injection h1 with h1'
        injection h2 with h2'
        rw [h1', h2']
      | succ j =>
        rw [List.get?_cons_succ] at h1 h2
        rw [List.zip_cons_cons, List.get?_cons_succ]
        exact ih ys j a b h1 h2

/-- The coercion loop keeps an entry that already is an opt type. -/
theorem coerceResults_get (results : List (Option String)) (events : List Event)
    (i : Nat) (o : Option String) (ev : Event)
    (hr : results.get? i = some o)
    (he : events.get? i = some ev)
    (ho : o = some "optIn" ∨ o = some "optOut") :
    (coerceResults results events).get? i = some o := by
  have hz := zip_get?_some results events i o ev hr he
  unfold coerceResults
  rw [List.get?_map, hz]
  rcases ho with h | h <;> subst h <;> simp

/-- C4 (amended): when an event of the batch is already known with an
unchanged modification_number, and it still has a recorded opt type in
responded_events, and no exception occurs while the batch is processed, then
neither on_event nor on_update_event is invoked for that event (its step
performs no handler invocation) and the recorded opt is reused as its final
result. -/
theorem on_event_unchanged_modnum_reuses_opt (dES : ActivePeriod → String)
    (vs : List String) (hs : Handlers) (st : EvState) (msg : OnEventMessage)
    (i : Nat) (ev : Event) (stI : EvState) (prev : Event) (o : Option String)
    (tr : List Invocation) (rs : List (Option String)) (st2 : EvState)
    (hget : msg.events.get? i = some ev)
    (hstep : stepState hs st msg.events i = some stI)
    (hrun : runBatch hs st msg.events = (tr, BatchOut.ok rs st2))
    (hfound : find_by stI.received_events (fun e => e.event_descriptor.event_id)
        ev.event_descriptor.event_id = some prev)
    (hmod : (prev.event_descriptor.modification_number
        == ev.event_descriptor.modification_number) = true)
    (hrec : pyGet stI.responded_events ev.event_descriptor.event_id = some o)
    (ho : o = some "optIn" ∨ o = some "optOut") :
    stepTrace hs st msg.events i = some [] ∧
    (_on_event dES vs hs st msg).results.get? i = some o := by
  obtain ⟨htrace, st3, hok⟩ :=
    runBatch_ok_step hs msg.events st i ev stI tr rs st2 hget hstep hrun
  have hpo1 : (processOne hs stI ev).1 = [] := by
    simp [processOne, hfound, hmod, hrec]
  have hpo2 : (processOne hs stI ev).2
      = StepOut.ok o (recordResponded ev.event_descriptor.event_status
          ev.event_descriptor.event_id o stI) := by
    simp [processOne, hfound, hmod, hrec]
  constructor
  · rw [htrace, hpo1]
  · have hoget : rs.getD i none = o := by
      rw [hpo2] at hok
      injection hok with h1 h2
      exact h1.symm
    have hlen := runBatch_ok_length hs msg.events st tr rs st2 hrun
    have hi : i < rs.length := by
      rw [hlen]
      exact List.get?_eq_some.mp hget |>.1
    have hrsi : rs.get? i = some o := by
      have h2 : rs.getD i none = rs.get ⟨i, hi⟩ := by
        simp [List.getD_eq_getElem?_getD, List.getElem?_eq_getElem hi,
          List.get_eq_getElem]
      rw [List.get?_eq_get hi, ← h2, hoget]
    have := coerceResults_get rs msg.events i o ev hrsi hget ho
    simp only [_on_event, hrun, onEventFinish]
    exact this

/-- C4 counterexample: the recorded optIn for the re-delivered, unchanged E1
is not reused when another event of the same batch makes a handler raise —
the whole batch, E1 included, is coerced to optOut. -/
theorem on_event_reuse_clobbered_by_batch_exception :
    pyGet exEvState.responded_events "E1" = some (some "optIn") ∧
    exBatchMsg.events.get? 0 = some exEvent1 ∧
    (find_by exEvState.received_events (fun e => e.event_descriptor.event_id)
        "E1").isSome = true ∧
    (_on_event exDES exSignalNames exHandlers exEvState exBatchMsg).results.get? 0
      = some (some "optOut") := by
  refine ⟨by decide, by decide, by decide, ?_⟩
  rfl

/-- C4 witness: the amended theorem at a singleton batch re-delivering the
known E1 with its recorded optIn. -/
theorem on_event_unchanged_modnum_reuses_opt_witness :
    stepTrace exHandlers exEvState exSingleMsg.events 0 = some [] ∧
    (_on_event exDES exSignalNames exHandlers exEvState exSingleMsg).results.get? 0
      = some (some "optIn") :=
  on_event_unchanged_modnum_reuses_opt exDES exSignalNames exHandlers exEvState
    exSingleMsg 0 exEvent1 exEvState exEvent1 (some "optIn") [] [some "optIn"]
    exEvState (by decide) (by decide) (by decide) (by decide) (by decide)
    (by decide) (Or.inl rfl)

/-- What the else branch of one create_report iteration can add: no response
code change, and only jobs, effects and records tagged with this request's
id. -/
theorem crElseBranch_additions (rrsIsNone : Bool) (acc : CRLoop) (pl : PayloadLoop)
    (rr : IncomingReportRequest) (acc' : CRLoop)
    (h : crElseBranch rrsIsNone acc pl rr = Except.ok acc') :
    acc'.response_code = acc.response_code ∧
    ∃ js es ns,
      acc'.jobs = acc.jobs ++ js ∧ acc'.effects = acc.effects ++ es ∧
      acc'.new_requests = acc.new_requests ++ ns ∧
      (∀ j ∈ js, jobTarget j = rr.report_request_id) ∧
      (∀ e ∈ es, e = Effect.ranUpdateReport rr.report_request_id) ∧
      (∀ nr ∈ ns, nr.report_request_id = rr.report_request_id) := by
  cases rrsIsNone with
  | true => simp [crElseBranch] at h
  | false =>
    rcases hd : rr.report_specifier.report_interval_dtstart with _ | dt
    · simp only [crElseBranch, hd, Bool.false_eq_true, if_false, Except.ok.injEq] at h
      subst h
      refine ⟨rfl, [], [Effect.ranUpdateReport rr.report_request_id],
        [{ report_request_id := rr.report_request_id,
           report_specifier_id := rr.report_specifier.report_specifier_id,
           report_back_duration := rr.report_specifier.report_back_duration,
           r_ids := [], granularity := pl.granularity, job := none }],
        by simp, rfl, rfl, ?_, ?_, ?_⟩
      · intro j hj; simp at hj
      · intro e he; simpa using he
      · intro nr hnr; simp at hnr; rw [hnr]
    · simp only [crElseBranch, hd, Bool.false_eq_true, if_false, Except.ok.injEq] at h
      subst h
      refine ⟨rfl, [SchedJob.date rr.report_request_id dt], [],
        [{ report_request_id := rr.report_request_id,
           report_specifier_id := rr.report_specifier.report_specifier_id,
           report_back_duration := rr.report_specifier.report_back_duration,
           r_ids := [], granularity := pl.granularity, job := none }],
        rfl, by simp, rfl, ?_, ?_, ?_⟩
      · intro j hj; simp at hj; rw [hj]; rfl
      · intro e he; simp at he
      · intro nr hnr; simp at hnr; rw [hnr]

/-- What one create_report iteration can do: keep or set the INVALID_ID
response code; add only jobs, effects and records tagged with this request's
id; and, when the request trips the INVALID test, add nothing and set the
code. -/
theorem processReportRequest_additions (reports? : Option (List Report))
    (rrsIsNone : Bool) (acc : CRLoop) (rr : IncomingReportRequest) (acc' : CRLoop)
    (h : processReportRequest reports? rrsIsNone acc rr = Except.ok acc') :
    (acc'.response_code = acc.response_code ∨ acc'.response_code = INVALID_ID) ∧
    (∃ js es ns,
      acc'.jobs = acc.jobs ++ js ∧ acc'.effects = acc.effects ++ es ∧
      acc'.new_requests = acc.new_requests ++ ns ∧
      (∀ j ∈ js, jobTarget j = rr.report_request_id) ∧
      (∀ e ∈ es, e = Effect.ranUpdateReport rr.report_request_id) ∧
      (∀ nr ∈ ns, nr.report_request_id = rr.report_request_id)) ∧
    (isInvalidReq rr = true → acc'.jobs = acc.jobs ∧ acc'.effects = acc.effects ∧
      acc'.new_requests = acc.new_requests ∧ acc'.response_code = INVALID_ID) := by
  unfold processReportRequest at h
  split at h
  · exact absurd h (by simp)
  next sp0 hhead =>
    split at h
    next hinv =>
      injection h with h'
      subst h'
      exact ⟨Or.inr rfl,
        ⟨[], [], [], by simp, by simp, by simp, by simp, by simp, by simp⟩,
        fun _ => ⟨rfl, rfl, rfl, rfl⟩⟩
    next hinvF =>
      have hIRF : isInvalidReq rr = false := by
        simp only [isInvalidReq, hhead]
        exact Bool.not_eq_true _ |>.mp hinvF
      have noInv : isInvalidReq rr = true →
          acc'.jobs = acc.jobs ∧ acc'.effects = acc.effects ∧
          acc'.new_requests = acc.new_requests ∧ acc'.response_code = INVALID_ID := by
        intro hI; rw [hIRF] at hI; cases hI
      split at h
      · exact absurd h (by simp)
      next reports =>
        split at h
        next hfind =>
          split at h
          · exact absurd h (by simp)
          · injection h with h'
            subst h'
            refine ⟨Or.inl rfl,
              ⟨[], [],
               [{ report_request_id := rr.report_request_id,
                  report_specifier_id := rr.report_specifier.report_specifier_id,
                  report_back_duration := rr.report_specifier.report_back_duration,
                  r_ids := [], granularity := rr.report_specifier.granularity,
                  job := none }],
               by simp, by simp, rfl, by simp, by simp, ?_⟩, noInv⟩
            intro nr hnr; simp at hnr; rw [hnr]
        next report hfind =>
          split at h
          · exact absurd h (by simp)
          next pl hpl =>
            split at h
            · split at h
              · exact absurd h (by simp)
              next r hrbd =>
                split at h
                · split at h
                  · exact absurd h (by simp)
                  · injection h with h'
                    subst h'
                    refine ⟨Or.inl rfl,
                      ⟨[SchedJob.cron rr.report_request_id
                          (match pl.granularity with
                           | some g => if g == 0 then r else g
                           | none => r)], [],
                       [{ report_request_id := rr.report_request_id,
                          report_specifier_id := rr.report_specifier.report_specifier_id,
                          report_back_duration := rr.report_specifier.report_back_duration,
                          r_ids := [], granularity := pl.granularity,
                          job := some (SchedJob.cron rr.report_request_id
                            (match pl.granularity with
                             | some g => if g == 0 then r else g
                             | none => r)) }],
                       rfl, by simp, rfl, ?_, by simp, ?_⟩, noInv⟩
                    · intro j hj; simp at hj; rw [hj]; rfl
                    · intro nr hnr; simp at hnr; rw [hnr]
                · obtain ⟨hcode, rest⟩ := crElseBranch_additions rrsIsNone acc pl rr acc' h
                  exact ⟨Or.inl hcode, rest, noInv⟩
            · obtain ⟨hcode, rest⟩ := crElseBranch_additions rrsIsNone acc pl rr acc' h
              exact ⟨Or.inl hcode, rest, noInv⟩

/-- The INVALID_ID response code, once set, survives the rest of the
request loop. -/
theorem crLoopRun_preserves_invalid (reports? : Option (List Report))
    (rrsIsNone : Bool) :
    ∀ (l : List IncomingReportRequest) (acc acc' : CRLoop),
    crLoopRun reports? rrsIsNone acc l = Except.ok acc' →
    acc.response_code = INVALID_ID → acc'.response_code = INVALID_ID := by
  intro l
  induction l with
  | nil =>
    intro acc acc' h hc
    simp [crLoopRun] at h
    rw [← h]; exact hc
  | cons rr rest ih =>
    intro acc acc' h hc
    rcases hp : processReportRequest reports? rrsIsNone acc rr with e | acc1
    · simp [crLoopRun, hp] at h
    · have hstep := processReportRequest_additions reports? rrsIsNone acc rr acc1 hp
      have hc1 : acc1.response_code = INVALID_ID := by
        rcases hstep.1 with h1 | h1
        · rw [h1, hc]
        · exact h1
      refine ih acc1 acc' ?_ hc1
      simpa [crLoopRun, hp] using h

/-- A request that trips the INVALID test forces the final response code to
INVALID_ID. -/
theorem crLoopRun_code_invalid (reports? : Option (List Report)) (rrsIsNone : Bool) :
    ∀ (l : List IncomingReportRequest) (acc acc' : CRLoop)
      (rr : IncomingReportRequest),
    rr ∈ l → isInvalidReq rr = true →
    crLoopRun reports? rrsIsNone acc l = Except.ok acc' →
    acc'.response_code = INVALID_ID := by
  intro l
  induction l with
  | nil => intro acc acc' rr hmem; simp at hmem
  | cons r0 rest ih =>
    intro acc acc' rr hmem hinv h
    rcases hp : processReportRequest reports? rrsIsNone acc r0 with e | acc1
    · simp [crLoopRun, hp] at h
    · have h' : crLoopRun reports? rrsIsNone acc1 rest = Except.ok acc' := by
        simpa [crLoopRun, hp] using h
      rcases List.mem_cons.mp hmem with heq | hmem'
      · subst heq
        have hstep := processReportRequest_additions reports? rrsIsNone acc rr acc1 hp
        have hI := hstep.2.2 hinv
        exact crLoopRun_preserves_invalid reports? rrsIsNone rest acc1 acc' h' hI.2.2.2
      · exact ih acc1 acc' rr hmem' hinv h'

/-- When every request of the payload is either invalid or carries a
different id, the loop adds no job, no inline update_report run and no
request record tagged with the target id. -/
theorem crLoopRun_no_target (reports? : Option (List Report)) (rrsIsNone : Bool)
    (tgt : String) :
    ∀ (l : List IncomingReportRequest) (acc acc' : CRLoop),
    crLoopRun reports? rrsIsNone acc l = Except.ok acc' →
    (∀ rr ∈ l, rr.report_request_id ≠ tgt ∨ isInvalidReq rr = true) →
    (∀ j ∈ acc'.jobs, j ∈ acc.jobs ∨ jobTarget j ≠ tgt) ∧
    (∀ e ∈ acc'.effects, e ∈ acc.effects ∨ e ≠ Effect.ranUpdateReport tgt) ∧
    (∀ nr ∈ acc'.new_requests, nr ∈ acc.new_requests ∨ nr.report_request_id ≠ tgt) := by
  intro l
  induction l with
  | nil =>
    intro acc acc' h hl
    simp [crLoopRun] at h
    rw [← h]
    exact ⟨fun j hj => Or.inl hj, fun e he => Or.inl he, fun nr hnr => Or.inl hnr⟩
  | cons rr rest ih =>
    intro acc acc' h hl
    rcases hp : processReportRequest reports? rrsIsNone acc rr with e | acc1
    · simp [crLoopRun, hp] at h
    · have h' : crLoopRun reports? rrsIsNone acc1 rest = Except.ok acc' := by
        simpa [crLoopRun, hp] using h
      have hstep := processReportRequest_additions reports? rrsIsNone acc rr acc1 hp
      obtain ⟨js, es, ns, hj, he, hn, hjt, het, hnt⟩ := hstep.2.1
      have hrr := hl rr (List.mem_cons_self rr rest)
      have stepJob : ∀ j ∈ acc1.jobs, j ∈ acc.jobs ∨ jobTarget j ≠ tgt := by
        intro j hjm
        rw [hj] at hjm
        rcases List.mem_append.mp hjm with h1 | h2
        · exact Or.inl h1
        · rcases hrr with hne | hinv
          · right; rw [hjt j h2]; exact hne
          · have hjeq := (hstep.2.2 hinv).1
            rw [hjeq] at hj
            have : js = [] := by
              have := List.append_right_eq_self.mp hj.symm
              exact this
            rw [this] at h2
            simp at h2
      have stepEff : ∀ e ∈ acc1.effects, e ∈ acc.effects ∨ e ≠ Effect.ranUpdateReport tgt := by
        intro e hem
        rw [he] at hem
        rcases List.mem_append.mp hem with h1 | h2
        · exact Or.inl h1
        · rcases hrr with hne | hinv
          · right; rw [het e h2]; intro hcon; injection hcon with hx; exact hne hx
          · have heeq := (hstep.2.2 hinv).2.1
            rw [heeq] at he
            have : es = [] := List.append_right_eq_self.mp he.symm
            rw [this] at h2
            simp at h2
      have stepRec : ∀ nr ∈ acc1.new_requests,
          nr ∈ acc.new_requests ∨ nr.report_request_id ≠ tgt := by
        intro nr hnm
        rw [hn] at hnm
        rcases List.mem_append.mp hnm with h1 | h2
        · exact Or.inl h1
        · rcases hrr with hne | hinv
          · right; rw [hnt nr h2]; exact hne
          · have hneq := (hstep.2.2 hinv).2.2.1
            rw [hneq] at hn
            have : ns = [] := List.append_right_eq_self.mp hn.symm
            rw [this] at h2
            simp at h2
      obtain ⟨ihj, ihe, ihn⟩ := ih acc1 acc' h'
        (fun rr2 hm => hl rr2 (List.mem_cons_of_mem rr hm))
      refine ⟨?_, ?_, ?_⟩
      · intro j hjm
        rcases ihj j hjm with h1 | h2
        · exact stepJob j h1
        · exact Or.inr h2
      · intro e hem
        rcases ihe e hem with h1 | h2
        · exact stepEff e h1
        · exact Or.inr h2
      · intro nr hnm
        rcases ihn nr hnm with h1 | h2
        · exact stepRec nr h1
        · exact Or.inr h2

/-- C7: for an incoming report_request whose report_specifier_id, or whose
(first) r_id, contains the substring INVALID, a successful create_report run
answers with an oadrCreatedReport whose response code is INVALID_ID (it is
the last message handed to the transport, listing every request of the
payload as pending), and schedules no sampling for that request: no
scheduler job targets it, update_report is never invoked inline for it, and
no new report_requests record carries its id. The other requests of the
payload are assumed to carry different ids. -/
theorem create_report_invalid_no_sampling
    (st : ClientState) (payload : CreateReportPayload) (rr : IncomingReportRequest)
    (st' : ClientState) (effs : List Effect)
    (hmem : rr ∈ payload.report_requests)
    (hinv : isInvalidReq rr = true)
    (hids : ∀ rr2 ∈ payload.report_requests,
        rr2.report_request_id = rr.report_request_id → rr2 = rr)
    (hok : create_report st payload = Except.ok (st', effs)) :
    (∃ reqId, effs.getLast? = some (Effect.sent (OutMsg.oadrCreatedReport INVALID_ID
        reqId (payload.report_requests.map (fun x => x.report_request_id))))) ∧
    (∀ j ∈ st'.scheduler_jobs, j ∈ st.scheduler_jobs
        ∨ jobTarget j ≠ rr.report_request_id) ∧
    Effect.ranUpdateReport rr.report_request_id ∉ effs ∧
    (∀ q, st'.report_requests = some q → ∀ nr ∈ q,
        (∃ q0, st.report_requests = some q0 ∧ nr ∈ q0)
          ∨ nr.report_request_id ≠ rr.report_request_id) := by
  unfold create_report at hok
  rcases hcr : crLoopRun st.reports st.report_requests.isNone crInit
      payload.report_requests with e | acc
  · rw [hcr] at hok; cases hok
  simp only [hcr] at hok
  rcases hqid : (match payload.request_id with
                 | some r => some r
                 | none => payload.response_request_id) with _ | reqId
  · rw [hqid] at hok; cases hok
  rw [hqid] at hok
  rw [Except.ok.injEq, Prod.mk.injEq] at hok
  obtain ⟨hst, heff⟩ := hok
  have hcode := crLoopRun_code_invalid st.reports st.report_requests.isNone
    payload.report_requests crInit acc rr hmem hinv hcr
  have hcond : ∀ rr2 ∈ payload.report_requests,
      rr2.report_request_id ≠ rr.report_request_id ∨ isInvalidReq rr2 = true := by
    intro rr2 hm
    by_cases hid : rr2.report_request_id = rr.report_request_id
    · right; rw [hids rr2 hm hid]; exact hinv
    · exact Or.inl hid
  obtain ⟨bja, bea, bna⟩ := crLoopRun_no_target st.reports st.report_requests.isNone
    rr.report_request_id payload.report_requests crInit acc hcr hcond
  have bj : ∀ j ∈ acc.jobs, jobTarget j ≠ rr.report_request_id := by
    intro j hj
    rcases bja j hj with h1 | h1
    · simp [crInit] at h1
    · exact h1
  have be : ∀ e ∈ acc.effects, e ≠ Effect.ranUpdateReport rr.report_request_id := by
    intro e he
    rcases bea e he with h1 | h1
    · simp [crInit] at h1
    · exact h1
  have bn : ∀ nr ∈ acc.new_requests, nr.report_request_id ≠ rr.report_request_id := by
    intro nr hn
    rcases bna nr hn with h1 | h1
    · simp [crInit] at h1
    · exact h1
  refine ⟨⟨reqId, ?_⟩, ?_, ?_, ?_⟩
  · rw [← heff, hcode]
    exact List.getLast?_concat _
  · intro j hj
    rw [← hst] at hj
    simp only [List.mem_append] at hj
    rcases hj with h1 | h1
    · exact Or.inl h1
    · exact Or.inr (bj j h1)
  · intro hbad
    rw [← heff] at hbad
    rcases List.mem_append.mp hbad with h1 | h1
    · exact be _ h1 rfl
    · simp at h1
  · intro q hq nr hn
    rw [← hst] at hq
    rcases hrq : st.report_requests with _ | l0
    · rw [hrq] at hq; cases hq
    · rw [hrq] at hq
      simp only [Option.some.injEq] at hq
      rw [← hq] at hn
      rcases List.mem_append.mp hn with h1 | h1
      · exact Or.inl ⟨l0, rfl, h1⟩
      · right
        simp only [List.mem_map] at h1
        obtain ⟨nr0, hnr0, hmap⟩ := h1
        have : nr.report_request_id = nr0.report_request_id := by
          rw [← hmap]
        rw [this]
        exact bn nr0 hnr0

/-- C7 witness: the theorem at a concrete client and a payload holding only
the INVALID request. -/
theorem create_report_invalid_no_sampling_witness :
    (∃ reqId, [Effect.sent (OutMsg.oadrCreatedReport INVALID_ID "REQ9" ["rrA"])].getLast?
        = some (Effect.sent (OutMsg.oadrCreatedReport INVALID_ID reqId
            (exInvalidPayload.report_requests.map (fun x => x.report_request_id))))) ∧
    (∀ j ∈ exClientState.scheduler_jobs, j ∈ exClientState.scheduler_jobs
        ∨ jobTarget j ≠ "rrA") ∧
    Effect.ranUpdateReport "rrA"
        ∉ [Effect.sent (OutMsg.oadrCreatedReport INVALID_ID "REQ9" ["rrA"])] ∧
    (∀ q, exClientState.report_requests = some q → ∀ nr ∈ q,
        (∃ q0, exClientState.report_requests = some q0 ∧ nr ∈ q0)
          ∨ nr.report_request_id ≠ "rrA") :=
  create_report_invalid_no_sampling exClientState exInvalidPayload exInvalidRequest
    exClientState [Effect.sent (OutMsg.oadrCreatedReport INVALID_ID "REQ9" ["rrA"])]
    (by decide) (by decide) (by decide) rfl

/-- C9: add_report called without a report_specifier_id, when a report with
the same report_name already exists, appends the new description to that
existing report and keys the callback under the existing report's
report_specifier_id, yet returns (None, r_id): the first component stays
the None the caller passed, not the existing report's specifier id. -/
theorem add_report_existing_name_returns_none
    (tables : EnumTables) (now : Time) (gsid grid : String) (cb : Cb)
    (a : AddReportArgs) (st : ClientState) (reports : List Report)
    (cbs : List ((String × String) × Cb)) (rep : Report) (m : Measurement)
    (sc : String)
    (hrs : a.report_specifier_id = none)
    (hname : tables.report_names.contains a.report_name = true)
    (hreading : tables.reading_types.contains a.reading_type = true)
    (hrtype : tables.report_types.contains a.report_type = true)
    (hsc : a.scale = some sc)
    (hsc2 : tables.si_scale_codes.contains sc = true)
    (hmode : a.data_collection_mode = "incremental")
    (hTS : (a.report_name == "TELEMETRY_STATUS") = false)
    (hmeas : a.measurement = some (MeasurementArg.obj m))
    (hms : m.scale.isSome = true)
    (hunit : a.unit = none)
    (hreports : st.reports = some reports)
    (hcbs : st.report_callbacks = some cbs)
    (hfound : find_by reports (fun r => r.report_name) a.report_name = some rep) :
    add_report tables now gsid grid cb a st = Except.ok
      ({ st with
         reports := some (updateFirstBy
           (fun r => r.report_name == rep.report_name
                     && r.report_specifier_id == rep.report_specifier_id)
           (fun r => { r with report_descriptions := r.report_descriptions
               ++ [{ r_id := pyOrStr a.r_id grid, reading_type := a.reading_type,
                     report_type := a.report_type, report_data_source := a.resource_id,
                     report_subject := a.resource_id,
                     sampling_rate :=
                       match a.sampling_rate with
                       | none => { min_period := 10, max_period := 3600, on_change := false }
                       | some (SamplingRateArg.obj sr) => sr
                       | some (SamplingRateArg.delta d) =>
                         { min_period := d, max_period := d, on_change := false },
                     measurement := some { m with scale := a.scale },
                     market_context := a.market_context }] })
           reports),
         report_callbacks := some (pySet cbs (rep.report_specifier_id, pyOrStr a.r_id grid) cb) },
       (none, pyOrStr a.r_id grid)) := by
  have hname' : a.report_name ∈ tables.report_names := by simpa using hname
  have hreading' : a.reading_type ∈ tables.reading_types := by simpa using hreading
  have hrtype' : a.report_type ∈ tables.report_types := by simpa using hrtype
  have hsc2' : sc ∈ tables.si_scale_codes := by simpa using hsc2
  have hTS' : ¬(a.report_name = "TELEMETRY_STATUS") := by simpa using hTS
  simp [add_report, hrs, hname', hreading', hrtype', hsc, hsc2', hmode, hTS',
    hms, hmeas, hunit, hreports, hcbs, hfound]

/-- C9 witness: the theorem at the concrete client whose TELEMETRY_USAGE
report already exists. -/
theorem add_report_existing_name_returns_none_witness :
    add_report exTables 500 "GSID1" "GRID1" exScalarCb exAddArgs exClientState
      = Except.ok (exAddResultState, (none, "r2")) :=
  add_report_existing_name_returns_none exTables 500 "GSID1" "GRID1" exScalarCb
    exAddArgs exClientState [exDeclaredReport] [(("rs1", "r1"), exScalarCb)]
    exDeclaredReport exMeasurement "none" rfl (by decide) (by decide) (by decide)
    rfl (by decide) rfl (by decide) rfl (by decide) rfl rfl rfl (by decide)

/-- C1: the completion rule of update_report is broken when the expected
interval count is reached on the very first sampling call (here an
incremental request with report_back_duration 15s, granularity 10s and one
r_id whose scalar callback yields one interval: the expected count is
1 * int(15/10) = 1): instead of flushing the complete report to the pending
queue, `self.incomplete_reports.pop(report_request_id)` raises KeyError
because no incomplete entry was ever stored, and nothing is enqueued or
buffered. -/
theorem update_report_first_call_complete_raises :
    (update_report 1000 exClientState "rr1").err = some PyErr.keyError ∧
    (update_report 1000 exClientState "rr1").state.pending_reports
      = exClientState.pending_reports ∧
    (update_report 1000 exClientState "rr1").state.incomplete_reports
      = exClientState.incomplete_reports :=
  ⟨rfl, rfl, rfl⟩

/-- Companion to C1 (spec scenario 2): on the continuation path the
completion rule does work. With report_back_duration 30s and granularity 10s
the expected count is 1 * int(30/10) = 3: the first two calls hold partial
reports of one and two intervals in the incomplete buffer with nothing
enqueued, and the third call flushes a three-interval report to the pending
queue and empties the buffer. -/
theorem update_report_three_fires_flush :
    exFire1.err = none ∧ exFire2.err = none ∧ exFire3.err = none ∧
    exFire1.state.pending_reports = some [] ∧
    exFire2.state.pending_reports = some [] ∧
    (exFire1.state.incomplete_reports.map (fun l => l.map
      (fun p => (p.1, p.2.intervals.length)))) = some [("rr1", 1)] ∧
    (exFire2.state.incomplete_reports.map (fun l => l.map
      (fun p => (p.1, p.2.intervals.length)))) = some [("rr1", 2)] ∧
    (exFire3.state.pending_reports.map (fun l => l.map
      (fun r => r.intervals.length))) = some [3] ∧
    exFire3.state.incomplete_reports = some [] :=
  ⟨rfl, rfl, rfl, rfl, rfl, rfl, rfl, rfl, rfl⟩

/-- Companion to C2: the two other exception paths inside `_poll`'s own
frame — the empty-body bare None raising TypeError at poll()'s unpacking,
and an oadrRegisterReport reply without a request_id raising KeyError. -/
theorem poll_other_raise_paths :
    _poll (PerformRet.bareNone : PerformRet PollPayload)
      = Except.error PyErr.typeError ∧
    _poll (PerformRet.value "oadrRegisterReport" exPollPayload)
      = Except.error PyErr.keyError :=
  ⟨rfl, rfl⟩

end OpenLEADR
